import Mathlib

/-!
# Verification of the agentc-trading core against its specification

Shallow embedding of the repository's data model and core operations:
the portfolio state (`src/models/position.py`), trade decisions
(`src/models/decision.py`), the kline ring buffer (`src/models/market.py`),
the indicator engine (`src/indicators.py`), the risk manager
(`src/risk_manager.py`) and the response parser (`src/strategy.py`).
Python floats are modelled as exact rationals (`ℚ`), except where the
source takes a square root (`np.std`), which is modelled over `ℝ`.
NaN sentinels of the indicator engine are modelled as `Option` values
(`none` = NaN).  Each claim of the specification is settled by one
theorem below the definitions.
-/

namespace AgentTrading

/-! ## Data model: decisions and positions (src/models/decision.py, position.py) -/

/-- `Action` enum from src/models/decision.py. -/
inductive Action where
  | LONG
  | SHORT
  | HOLD
  | CLOSE
  deriving DecidableEq, Repr

/-- `TradeDecision` from src/models/decision.py. -/
structure TradeDecision where
  symbol : String
  action : Action
  leverage : ℚ := 1
  quantity : ℚ := 0
  stop_loss : ℚ := 0
  take_profit : ℚ := 0
  confidence : ℚ := 0
  reasoning : String := ""
  deriving DecidableEq, Repr

/-- `TradeDecision.hold` factory from src/models/decision.py. -/
def TradeDecision.hold (symbol : String) (reasoning : String := "No action") :
    TradeDecision :=
  { symbol := symbol, action := Action.HOLD, reasoning := reasoning }

/-- `Position` from src/models/position.py (timestamps as rationals). -/
structure Position where
  symbol : String
  side : Action
  entry_price : ℚ
  quantity : ℚ
  leverage : ℚ
  stop_loss : ℚ
  take_profit : ℚ
  margin : ℚ
  opened_at : ℚ := 0
  confidence : ℚ := 0
  reasoning : String := ""
  deriving DecidableEq, Repr

/-- `Position.unrealized_pnl` from src/models/position.py. -/
def Position.unrealized_pnl (p : Position) (current_price : ℚ) : ℚ :=
  if p.side = Action.LONG then p.quantity * (current_price - p.entry_price)
  else if p.side = Action.SHORT then p.quantity * (p.entry_price - current_price)
  else 0

/-- `Position.unrealized_pnl_pct` from src/models/position.py. -/
def Position.unrealized_pnl_pct (p : Position) (current_price : ℚ) : ℚ :=
  if p.margin = 0 then 0 else p.unrealized_pnl current_price / p.margin * 100

/-- `ClosedTrade` from src/models/position.py. -/
structure ClosedTrade where
  symbol : String
  side : Action
  entry_price : ℚ
  exit_price : ℚ
  quantity : ℚ
  leverage : ℚ
  margin : ℚ
  pnl : ℚ
  pnl_pct : ℚ
  opened_at : ℚ
  closed_at : ℚ := 0
  close_reason : String := ""
  deriving DecidableEq, Repr

/-- `ClosedTrade.is_win` from src/models/position.py (`pnl > 0`). -/
def ClosedTrade.is_win (t : ClosedTrade) : Bool := 0 < t.pnl

/-- `PortfolioState` from src/models/position.py (analysis cycles omitted:
they are never read by the operations under verification). -/
structure PortfolioState where
  initial_budget : ℚ := 1000
  current_budget : ℚ := 1000
  peak_budget : ℚ := 1000
  open_positions : List Position := []
  closed_trades : List ClosedTrade := []
  deriving DecidableEq, Repr

/-- `PortfolioState.total_margin_in_use` (sum of open margins). -/
def PortfolioState.total_margin_in_use (p : PortfolioState) : ℚ :=
  (p.open_positions.map Position.margin).sum

/-- `PortfolioState.available_budget` (current budget minus margin in use). -/
def PortfolioState.available_budget (p : PortfolioState) : ℚ :=
  p.current_budget - p.total_margin_in_use

/-- `PortfolioState.total_trades` (number of closed trades). -/
def PortfolioState.total_trades (p : PortfolioState) : Nat :=
  p.closed_trades.length

/-- `PortfolioState.win_rate_last_n`: win fraction over `closed_trades[-n:]`.
Python's `lst[-n:]` is the whole list when `n = 0`. -/
def PortfolioState.win_rate_last_n (p : PortfolioState) (n : Nat) : ℚ :=
  let recent :=
    if n = 0 then p.closed_trades
    else p.closed_trades.drop (p.closed_trades.length - n)
  if recent = [] then 0
  else ((recent.countP ClosedTrade.is_win : ℚ)) / (recent.length : ℚ)

/-- `PortfolioState.losing_streak`: consecutive non-winning trades from the
tail of `closed_trades`. -/
def PortfolioState.losing_streak (p : PortfolioState) : Nat :=
  (p.closed_trades.reverse.takeWhile (fun t => !t.is_win)).length

/-- `PortfolioState.drawdown_from_peak` from src/models/position.py. -/
def PortfolioState.drawdown_from_peak (p : PortfolioState) : ℚ :=
  if p.peak_budget = 0 then 0
  else (p.peak_budget - p.current_budget) / p.peak_budget

/-- `PortfolioState.update_peak` from src/models/position.py. -/
def PortfolioState.update_peak (p : PortfolioState) : PortfolioState :=
  if p.peak_budget < p.current_budget then { p with peak_budget := p.current_budget }
  else p

/-- `PortfolioState.get_positions_for_symbol` from src/models/position.py. -/
def PortfolioState.get_positions_for_symbol (p : PortfolioState) (symbol : String) :
    List Position :=
  p.open_positions.filter (fun q => q.symbol = symbol)

/-- `PortfolioState.open_position` from src/models/position.py. -/
def PortfolioState.open_position (p : PortfolioState) (pos : Position) :
    PortfolioState :=
  { p with open_positions := p.open_positions ++ [pos] }

/-- `PortfolioState.close_position` from src/models/position.py: realize the
PnL into `current_budget`, record the `ClosedTrade`, remove the position and
update the peak.  Returns the recorded trade with the new state. -/
def PortfolioState.close_position (p : PortfolioState) (pos : Position)
    (exit_price : ℚ) (reason : String) (closed_at : ℚ := 0) :
    ClosedTrade × PortfolioState :=
  let pnl := pos.unrealized_pnl exit_price
  let trade : ClosedTrade :=
    { symbol := pos.symbol, side := pos.side, entry_price := pos.entry_price
      exit_price := exit_price, quantity := pos.quantity
      leverage := pos.leverage, margin := pos.margin, pnl := pnl
      pnl_pct := pos.unrealized_pnl_pct exit_price
      opened_at := pos.opened_at, closed_at := closed_at, close_reason := reason }
  let p' : PortfolioState :=
    { p with current_budget := p.current_budget + pnl
             closed_trades := p.closed_trades ++ [trade]
             open_positions := p.open_positions.erase pos }
  (trade, p'.update_peak)

/-! ## Configuration (src/models/config.py) -/

/-- `ReserveThresholds` from src/models/config.py. -/
structure ReserveThresholds where
  free_pct : ℚ := 7/10
  guarded_pct : ℚ := 1/5
  guarded_win_rate : ℚ := 9/20
  guarded_min_trades : Nat := 20
  guarded_max_losing_streak : Nat := 3
  guarded_min_confidence : ℚ := 3/4
  guarded_min_rr : ℚ := 2
  guarded_max_leverage : ℚ := 3
  floor_pct : ℚ := 1/20
  floor_win_rate : ℚ := 3/5
  floor_min_trades : Nat := 30
  floor_min_confidence : ℚ := 9/10
  floor_min_rr : ℚ := 3
  lockout_pct : ℚ := 1/20
  deriving Repr

/-- `RiskConfig` from src/models/config.py. -/
structure RiskConfig where
  reserve : ReserveThresholds := {}
  max_loss_per_trade_pct : ℚ := 1/50
  max_total_exposure_pct : ℚ := 4/5
  min_sl_atr_multiple : ℚ := 1/2
  max_sl_atr_multiple : ℚ := 3
  drawdown_reduce_pct : ℚ := 1/10
  drawdown_halt_pct : ℚ := 1/5
  deriving Repr

/-- `LeverageScale` from src/models/config.py: list of
(min_confidence, max_confidence, max_leverage) triples. -/
structure LeverageScale where
  thresholds : List (ℚ × ℚ × ℚ) :=
    [(0, 3/10, 1), (3/10, 1/2, 2), (1/2, 7/10, 5), (7/10, 17/20, 7),
     (17/20, 101/100, 10)]
  deriving Repr

/-- `LeverageScale.max_leverage_for`: first matching half-open bracket,
default 1. -/
def LeverageScale.max_leverage_for (ls : LeverageScale) (confidence : ℚ) : ℚ :=
  match ls.thresholds.find? (fun t => decide (t.1 ≤ confidence) && decide (confidence < t.2.1)) with
  | some t => t.2.2
  | none => 1

/-- The risk-relevant part of `TradingConfig`, as held by `RiskManager.__init__`. -/
structure RiskManager where
  risk : RiskConfig := {}
  leverage_scale : LeverageScale := {}
  deriving Repr

/-- `self.reserve` alias set up in `RiskManager.__init__`. -/
def RiskManager.reserve (rm : RiskManager) : ReserveThresholds := rm.risk.reserve

/-- A risk manager built from the default `TradingConfig`. -/
def defaultRM : RiskManager := {}

/-! ## Indicator report surface read by the risk manager -/

/-- The slice of `TimeframeIndicators` (src/indicators.py) that the risk
manager reads: the last ATR value. -/
structure TimeframeIndicators where
  atr_14 : ℚ := 0
  deriving Repr

/-- The slice of `IndicatorReport` (src/indicators.py) read by the risk
manager: the per-timeframe dict, modelled as an association list. -/
structure IndicatorReport where
  timeframes : List (String × TimeframeIndicators) := []
  deriving Repr

/-- `RiskManager._get_atr`: first positive ATR among the "15m", "5m", "1h"
timeframes, else 0. -/
def RiskManager.get_atr (report : IndicatorReport) : ℚ :=
  match (["15m", "5m", "1h"].foldl (fun acc tf =>
      match acc with
      | some v => some v
      | none =>
        match report.timeframes.lookup tf with
        | some ti => if 0 < ti.atr_14 then some ti.atr_14 else none
        | none => none) none) with
  | some v => v
  | none => 0

/-! ## Budget zones (`RiskManager.compute_budget_zones`) -/

/-- `BudgetZones` dataclass from src/risk_manager.py. -/
structure BudgetZones where
  total : ℚ := 0
  free : ℚ := 0
  guarded : ℚ := 0
  floor : ℚ := 0
  lockout : ℚ := 0
  accessible : ℚ := 0
  deriving DecidableEq, Repr

/-- `RiskManager._guarded_unlocked`, with the source's early-return chain. -/
def RiskManager.guarded_unlocked (rm : RiskManager) (p : PortfolioState) : Bool :=
  if p.total_trades < rm.reserve.guarded_min_trades then false
  else if p.win_rate_last_n rm.reserve.guarded_min_trades < rm.reserve.guarded_win_rate then false
  else if rm.reserve.guarded_max_losing_streak ≤ p.losing_streak then false
  else true

/-- `RiskManager._floor_unlocked`, with the source's early-return chain. -/
def RiskManager.floor_unlocked (rm : RiskManager) (p : PortfolioState) : Bool :=
  if p.total_trades < rm.reserve.floor_min_trades then false
  else if p.win_rate_last_n rm.reserve.floor_min_trades < rm.reserve.floor_win_rate then false
  else true

/-- `RiskManager.compute_budget_zones` from src/risk_manager.py. -/
def RiskManager.compute_budget_zones (rm : RiskManager) (p : PortfolioState) :
    BudgetZones :=
  let total := p.current_budget
  let free := total * rm.reserve.free_pct
  let guarded := total * rm.reserve.guarded_pct
  let floor := total * rm.reserve.floor_pct
  let accessible0 := free
  let accessible1 := if rm.guarded_unlocked p then accessible0 + guarded else accessible0
  let accessible2 := if rm.floor_unlocked p then accessible1 + floor else accessible1
  { total := total, free := free, guarded := guarded, floor := floor
    lockout := total * rm.reserve.lockout_pct
    accessible := max 0 (accessible2 - p.total_margin_in_use) }

/-! ## Decision validation (`RiskManager.validate_decision`)

The pipeline's intermediate quantities are named definitions so that the
layer behaviour can be stated claim by claim; each mirrors the statement
at the corresponding line of src/risk_manager.py. -/

/-- Machine-readable tags for the rejection / info reason strings appended
by `validate_decision` (one tag per `reasons.append` site). -/
inductive Reason where
  | halted
  | sizeHalved
  | confidenceTooLow
  | noAccessibleBudget
  | noStopLoss
  | longSLNotBelow
  | shortSLNotAbove
  | slTooTight
  | slTooWide
  | rrBelowMin
  | sizeRoundsToZero
  | exposureLimitReached
  | alreadyHaveSide
  | oppositeSide
  deriving DecidableEq, Repr

/-- `ValidatedDecision` from src/models/decision.py (reasons as tags). -/
structure ValidatedDecision where
  original : TradeDecision
  approved : Bool := false
  adjusted_leverage : ℚ := 0
  adjusted_quantity : ℚ := 0
  rejection_reasons : List Reason := []
  margin_required : ℚ := 0
  max_loss : ℚ := 0
  deriving DecidableEq, Repr

/-- A rejection result: only the reasons are set, everything else keeps the
dataclass defaults (as in the source's early returns). -/
def rejectedWith (d : TradeDecision) (reasons : List Reason) : ValidatedDecision :=
  { original := d, rejection_reasons := reasons }

/-- Layer 1.5: size multiplier halved at the drawdown reduce threshold. -/
def RiskManager.size_multiplier (rm : RiskManager) (p : PortfolioState) : ℚ :=
  if rm.risk.drawdown_reduce_pct ≤ p.drawdown_from_peak then 1/2 else 1

/-- The informational reason recorded when the size multiplier is halved
(present in every later result, approved or not). -/
def RiskManager.info_reasons (rm : RiskManager) (p : PortfolioState) : List Reason :=
  if rm.risk.drawdown_reduce_pct ≤ p.drawdown_from_peak then [Reason.sizeHalved] else []

/-- Layer 2: `confidence = max(0.0, min(1.0, decision.confidence))`. -/
def clamp_confidence (d : TradeDecision) : ℚ := max 0 (min 1 d.confidence)

/-- Layer 3: `adjusted_leverage = min(decision.leverage, max_lev)`. -/
def RiskManager.lev_after_cap (rm : RiskManager) (d : TradeDecision) : ℚ :=
  min d.leverage (rm.leverage_scale.max_leverage_for (clamp_confidence d))

/-- Layer 4 guard: `portfolio.available_budget - zones.free > 0`
("we'd be dipping into guarded territory"). -/
def RiskManager.dips_beyond_free (rm : RiskManager) (p : PortfolioState) : Prop :=
  0 < p.available_budget - (rm.compute_budget_zones p).free

instance (rm : RiskManager) (p : PortfolioState) :
    Decidable (rm.dips_beyond_free p) := by
  unfold RiskManager.dips_beyond_free; infer_instance

/-- Layer 4: accessible budget after the guarded-territory restriction. -/
def RiskManager.accessible_after_zone (rm : RiskManager) (d : TradeDecision)
    (p : PortfolioState) : ℚ :=
  let zones := rm.compute_budget_zones p
  if rm.dips_beyond_free p ∧ clamp_confidence d < rm.reserve.guarded_min_confidence then
    min zones.accessible (max 0 (zones.free - p.total_margin_in_use))
  else zones.accessible

/-- Layer 4: adjusted leverage after the guarded-territory clamp. -/
def RiskManager.lev_after_zone (rm : RiskManager) (d : TradeDecision)
    (p : PortfolioState) : ℚ :=
  if rm.dips_beyond_free p ∧ clamp_confidence d < rm.reserve.guarded_min_confidence
      ∧ rm.reserve.guarded_max_leverage < rm.lev_after_cap d then
    min (rm.lev_after_cap d) rm.reserve.guarded_max_leverage
  else rm.lev_after_cap d

/-- Layer 5: `sl_distance = abs(current_price - decision.stop_loss)`. -/
def sl_distance (d : TradeDecision) (current_price : ℚ) : ℚ :=
  |current_price - d.stop_loss|

/-- Layer 5: `sl_pct = sl_distance / current_price if current_price > 0 else 0`. -/
def sl_pct (d : TradeDecision) (current_price : ℚ) : ℚ :=
  if 0 < current_price then sl_distance d current_price / current_price else 0

/-- Layer 6: `rr_ratio = tp_distance / sl_distance if sl_distance > 0 else 0`. -/
def rr_ratio (d : TradeDecision) (current_price : ℚ) : ℚ :=
  if 0 < sl_distance d current_price then
    |d.take_profit - current_price| / sl_distance d current_price
  else 0

/-- Layer 6: minimum risk/reward ratio — base 1.5, raised to
`guarded_min_rr` when the (possibly restricted) accessible budget exceeds
the free zone. -/
def RiskManager.min_rr (rm : RiskManager) (d : TradeDecision) (p : PortfolioState) : ℚ :=
  if (rm.compute_budget_zones p).free < rm.accessible_after_zone d p then
    max (3/2) rm.reserve.guarded_min_rr
  else 3/2

/-- Layer 7: `max_loss_budget = accessible * max_loss_per_trade_pct * size_multiplier`. -/
def RiskManager.max_loss_budget (rm : RiskManager) (d : TradeDecision)
    (p : PortfolioState) : ℚ :=
  rm.accessible_after_zone d p * rm.risk.max_loss_per_trade_pct * rm.size_multiplier p

/-- Layer 7: `max_quantity = max_loss_budget / (current_price * sl_pct)`. -/
def RiskManager.max_quantity (rm : RiskManager) (d : TradeDecision)
    (p : PortfolioState) (cp : ℚ) : ℚ :=
  if 0 < sl_pct d cp then rm.max_loss_budget d p / (cp * sl_pct d cp) else 0

/-- Layer 7: `adjusted_quantity = min(requested, max_quantity)` (0 if the cap
is non-positive). -/
def RiskManager.quantity_sized (rm : RiskManager) (d : TradeDecision)
    (p : PortfolioState) (cp : ℚ) : ℚ :=
  if 0 < rm.max_quantity d p cp then min d.quantity (rm.max_quantity d p cp) else 0

/-- Layer 8: `margin_needed = notional / adjusted_leverage` (notional itself
when the leverage is non-positive). -/
def RiskManager.margin_raw (rm : RiskManager) (d : TradeDecision)
    (p : PortfolioState) (cp : ℚ) : ℚ :=
  let notional := rm.quantity_sized d p cp * cp
  if 0 < rm.lev_after_zone d p then notional / rm.lev_after_zone d p else notional

/-- Layer 8 first clamp: reduce the margin to the accessible budget. -/
def RiskManager.margin_fit (rm : RiskManager) (d : TradeDecision)
    (p : PortfolioState) (cp : ℚ) : ℚ :=
  if rm.accessible_after_zone d p < rm.margin_raw d p cp then
    rm.accessible_after_zone d p
  else rm.margin_raw d p cp

/-- Layer 8 first clamp: the quantity matching `margin_fit`. -/
def RiskManager.quantity_fit (rm : RiskManager) (d : TradeDecision)
    (p : PortfolioState) (cp : ℚ) : ℚ :=
  if rm.accessible_after_zone d p < rm.margin_raw d p cp then
    if 0 < cp then rm.margin_fit d p cp * rm.lev_after_zone d p / cp else 0
  else rm.quantity_sized d p cp

/-- Layer 8: `max_exposure = current_budget * max_total_exposure_pct`. -/
def RiskManager.max_exposure (rm : RiskManager) (p : PortfolioState) : ℚ :=
  p.current_budget * rm.risk.max_total_exposure_pct

/-- Layer 8 second clamp: final margin after the total-exposure limit. -/
def RiskManager.margin_final (rm : RiskManager) (d : TradeDecision)
    (p : PortfolioState) (cp : ℚ) : ℚ :=
  if rm.max_exposure p < p.total_margin_in_use + rm.margin_fit d p cp then
    max 0 (rm.max_exposure p - p.total_margin_in_use)
  else rm.margin_fit d p cp

/-- Layer 8 second clamp: the quantity matching `margin_final`. -/
def RiskManager.quantity_final (rm : RiskManager) (d : TradeDecision)
    (p : PortfolioState) (cp : ℚ) : ℚ :=
  if rm.max_exposure p < p.total_margin_in_use + rm.margin_fit d p cp then
    if 0 < cp then rm.margin_final d p cp * rm.lev_after_zone d p / cp else 0
  else rm.quantity_fit d p cp

/-- The approved result assembled at the end of `validate_decision`. -/
def RiskManager.approvedResult (rm : RiskManager) (d : TradeDecision)
    (p : PortfolioState) (cp : ℚ) : ValidatedDecision :=
  { original := d, approved := true
    adjusted_leverage := rm.lev_after_zone d p
    adjusted_quantity := rm.quantity_final d p cp
    margin_required := rm.margin_final d p cp
    max_loss := rm.quantity_final d p cp * sl_distance d cp
    rejection_reasons := rm.info_reasons p }

/-- `RiskManager.validate_decision` from src/risk_manager.py: the ordered
layer pipeline with its early returns. -/
def RiskManager.validate_decision (rm : RiskManager) (d : TradeDecision)
    (p : PortfolioState) (report : IndicatorReport) (cp : ℚ) : ValidatedDecision :=
  -- Layer 0: HOLD/CLOSE pass through
  if d.action = Action.HOLD ∨ d.action = Action.CLOSE then
    { original := d, approved := true, adjusted_leverage := d.leverage
      adjusted_quantity := d.quantity }
  -- Layer 1: drawdown circuit breaker
  else if rm.risk.drawdown_halt_pct ≤ p.drawdown_from_peak then
    rejectedWith d [Reason.halted]
  -- Layer 2: confidence floor
  else if clamp_confidence d < 1/10 then
    rejectedWith d (rm.info_reasons p ++ [Reason.confidenceTooLow])
  -- Layer 4: budget-zone access
  else if rm.accessible_after_zone d p ≤ 0 then
    rejectedWith d (rm.info_reasons p ++ [Reason.noAccessibleBudget])
  -- Layer 5: stop-loss validity
  else if d.stop_loss ≤ 0 then
    rejectedWith d (rm.info_reasons p ++ [Reason.noStopLoss])
  else if d.action = Action.LONG ∧ cp ≤ d.stop_loss then
    rejectedWith d (rm.info_reasons p ++ [Reason.longSLNotBelow])
  else if d.action = Action.SHORT ∧ d.stop_loss ≤ cp then
    rejectedWith d (rm.info_reasons p ++ [Reason.shortSLNotAbove])
  else if 0 < RiskManager.get_atr report ∧
      sl_distance d cp / RiskManager.get_atr report < rm.risk.min_sl_atr_multiple then
    rejectedWith d (rm.info_reasons p ++ [Reason.slTooTight])
  else if 0 < RiskManager.get_atr report ∧
      rm.risk.max_sl_atr_multiple < sl_distance d cp / RiskManager.get_atr report then
    rejectedWith d (rm.info_reasons p ++ [Reason.slTooWide])
  -- Layer 6: risk/reward ratio
  else if 0 < d.take_profit ∧ rr_ratio d cp < rm.min_rr d p then
    rejectedWith d (rm.info_reasons p ++ [Reason.rrBelowMin])
  -- Layer 7: position sizing
  else if rm.quantity_sized d p cp ≤ 0 then
    rejectedWith d (rm.info_reasons p ++ [Reason.sizeRoundsToZero])
  -- Layer 8: margin and total-exposure clamp
  else if rm.max_exposure p < p.total_margin_in_use + rm.margin_fit d p cp ∧
      max 0 (rm.max_exposure p - p.total_margin_in_use) ≤ 0 then
    rejectedWith d (rm.info_reasons p ++ [Reason.exposureLimitReached])
  -- Layer 9: existing position conflict
  else
    match p.get_positions_for_symbol d.symbol with
    | [] => rm.approvedResult d p cp
    | pos :: _ =>
      if pos.side = d.action then
        rejectedWith d (rm.info_reasons p ++ [Reason.alreadyHaveSide])
      else
        rejectedWith d (rm.info_reasons p ++ [Reason.oppositeSide])

/-! ## Claim C2: budget-zone formula and unlock scenarios -/

/-- The guarded-zone unlock condition as the spec states it. -/
theorem guarded_unlocked_iff (p : PortfolioState) :
    defaultRM.guarded_unlocked p = true ↔
      20 ≤ p.total_trades ∧ 9/20 ≤ p.win_rate_last_n 20 ∧ p.losing_streak < 3 := by
  unfold RiskManager.guarded_unlocked
  simp only [defaultRM, RiskManager.reserve]
  split_ifs with h1 h2 h3 <;> simp_all

/-- The floor-zone unlock condition as the spec states it. -/
theorem floor_unlocked_iff (p : PortfolioState) :
    defaultRM.floor_unlocked p = true ↔
      30 ≤ p.total_trades ∧ 3/5 ≤ p.win_rate_last_n 30 := by
  unfold RiskManager.floor_unlocked
  simp only [defaultRM, RiskManager.reserve]
  split_ifs with h1 h2 <;> simp_all

/-- A portfolio of 20 winning trades (equity 1000, no margin in use). -/
def winTrade : ClosedTrade :=
  { symbol := "PERP_ETH_USDC", side := Action.LONG, entry_price := 3000
    exit_price := 3060, quantity := 1/10, leverage := 5, margin := 60
    pnl := 6, pnl_pct := 10, opened_at := 0, close_reason := "TP" }

/-- A losing trade (pnl −6). -/
def lossTrade : ClosedTrade :=
  { symbol := "PERP_ETH_USDC", side := Action.LONG, entry_price := 3000
    exit_price := 2940, quantity := 1/10, leverage := 5, margin := 60
    pnl := -6, pnl_pct := -10, opened_at := 0, close_reason := "SL" }

/-- Scenario S2: 20 winning trades. -/
def portfolio20Wins : PortfolioState :=
  { closed_trades := List.replicate 20 winTrade }

/-- Scenario S3: 17 wins then 3 losses (losing streak 3). -/
def portfolio17W3L : PortfolioState :=
  { closed_trades := List.replicate 17 winTrade ++ List.replicate 3 lossTrade }

/-- The accessible-budget formula of `compute_budget_zones` at the default
configuration, with the unlock conditions spelled out. -/
theorem budget_zones_accessible_general (p : PortfolioState) :
    (defaultRM.compute_budget_zones p).accessible =
      max 0 (p.current_budget * (7/10)
        + (if 20 ≤ p.total_trades ∧ 9/20 ≤ p.win_rate_last_n 20 ∧
              p.losing_streak < 3 then p.current_budget * (1/5) else 0)
        + (if 30 ≤ p.total_trades ∧ 3/5 ≤ p.win_rate_last_n 30 then
              p.current_budget * (1/20) else 0)
        - p.total_margin_in_use) := by
  unfold RiskManager.compute_budget_zones
  by_cases hg : defaultRM.guarded_unlocked p = true <;>
    by_cases hf : defaultRM.floor_unlocked p = true <;>
      simp only [hg, hf, if_true, if_false, Bool.false_eq_true,
        (guarded_unlocked_iff p).symm, (floor_unlocked_iff p).symm] <;>
      simp [hg, hf, defaultRM, RiskManager.reserve]

/-- C2 — `compute_budget_zones` returns
`accessible = max 0 (free + guarded? + floor? − margin_in_use)`, where the
guarded zone unlocks iff `total_trades ≥ 20 ∧ win_rate_last_n 20 ≥ 0.45 ∧
losing_streak < 3` and the floor unlocks iff `total_trades ≥ 30 ∧
win_rate_last_n 30 ≥ 0.60`; for equity 1000 with no margin in use,
20 straight wins give `accessible = 900` and 17 wins followed by 3 losses
give `accessible = 700`. -/
theorem budget_zones_accessible_formula :
    (∀ p : PortfolioState,
      (defaultRM.compute_budget_zones p).accessible =
        max 0 (p.current_budget * (7/10)
          + (if 20 ≤ p.total_trades ∧ 9/20 ≤ p.win_rate_last_n 20 ∧
                p.losing_streak < 3 then p.current_budget * (1/5) else 0)
          + (if 30 ≤ p.total_trades ∧ 3/5 ≤ p.win_rate_last_n 30 then
                p.current_budget * (1/20) else 0)
          - p.total_margin_in_use)) ∧
    (defaultRM.compute_budget_zones portfolio20Wins).accessible = 900 ∧
    (defaultRM.compute_budget_zones portfolio17W3L).accessible = 700 := by
  have hwr20 : portfolio20Wins.win_rate_last_n 20 = 1 := by
    simp [PortfolioState.win_rate_last_n, portfolio20Wins, winTrade,
      ClosedTrade.is_win, List.replicate]
  refine ⟨budget_zones_accessible_general, ?_, ?_⟩
  · rw [budget_zones_accessible_general]
    rw [if_pos ⟨by decide, by rw [hwr20]; norm_num, by decide⟩,
      if_neg (fun h => absurd h.1 (by decide))]
    rw [show portfolio20Wins.current_budget = 1000 from rfl,
      show portfolio20Wins.total_margin_in_use = 0 from rfl]
    rw [max_eq_right (by norm_num)]
    norm_num
  · rw [budget_zones_accessible_general]
    rw [if_neg (fun h => absurd h.2.2 (by decide)),
      if_neg (fun h => absurd h.1 (by decide))]
    rw [show portfolio17W3L.current_budget = 1000 from rfl,
      show portfolio17W3L.total_margin_in_use = 0 from rfl]
    rw [max_eq_right (by norm_num)]
    norm_num

/-! ## Claim C6: HOLD / CLOSE pass-through -/

/-- C6 — for a HOLD or CLOSE decision, `validate_decision` approves and
copies the original leverage and quantity unchanged, for every portfolio
state (in particular when `drawdown_from_peak ≥ 0.20`, since the
pass-through precedes the drawdown circuit breaker). -/
theorem hold_close_pass_through (rm : RiskManager) (d : TradeDecision)
    (p : PortfolioState) (report : IndicatorReport) (cp : ℚ)
    (h : d.action = Action.HOLD ∨ d.action = Action.CLOSE) :
    (rm.validate_decision d p report cp).approved = true ∧
    (rm.validate_decision d p report cp).adjusted_leverage = d.leverage ∧
    (rm.validate_decision d p report cp).adjusted_quantity = d.quantity := by
  unfold RiskManager.validate_decision
  rw [if_pos h]
  exact ⟨rfl, rfl, rfl⟩

/-- A portfolio past the 20% drawdown halt threshold (equity 790, peak 1000). -/
def haltedPortfolio : PortfolioState :=
  { current_budget := 790, peak_budget := 1000 }

/-- Witness for C6: a concrete HOLD decision against a halted portfolio. -/
theorem hold_close_pass_through_witness :
    (defaultRM.validate_decision (TradeDecision.hold "PERP_ETH_USDC")
        haltedPortfolio {} 3000).approved = true ∧
    (defaultRM.validate_decision (TradeDecision.hold "PERP_ETH_USDC")
        haltedPortfolio {} 3000).adjusted_leverage =
      (TradeDecision.hold "PERP_ETH_USDC").leverage ∧
    (defaultRM.validate_decision (TradeDecision.hold "PERP_ETH_USDC")
        haltedPortfolio {} 3000).adjusted_quantity =
      (TradeDecision.hold "PERP_ETH_USDC").quantity :=
  hold_close_pass_through defaultRM (TradeDecision.hold "PERP_ETH_USDC")
    haltedPortfolio {} 3000 (Or.inl rfl)

/-! ## Claim C3: budget-zone access restriction (layer 4) -/

/-- The free-zone remainder is never above the unrestricted accessible
budget (the guarded and floor slices are non-negative when the budget is). -/
theorem free_remainder_le_accessible (p : PortfolioState)
    (hbud : 0 ≤ p.current_budget) :
    max 0 ((defaultRM.compute_budget_zones p).free - p.total_margin_in_use) ≤
      (defaultRM.compute_budget_zones p).accessible := by
  unfold RiskManager.compute_budget_zones
  have hg : 0 ≤ p.current_budget * defaultRM.reserve.guarded_pct := by
    apply mul_nonneg hbud; norm_num [defaultRM, RiskManager.reserve]
  have hf : 0 ≤ p.current_budget * defaultRM.reserve.floor_pct := by
    apply mul_nonneg hbud; norm_num [defaultRM, RiskManager.reserve]
  dsimp only
  split_ifs <;> exact max_le_max le_rfl (by linarith)

/-- C3 — on a LONG/SHORT decision, exactly when the portfolio would dip
beyond the free zone and the clamped confidence is below 0.75, the
accessible budget is restricted to the free-zone remainder (clamped at 0)
and the adjusted leverage is clamped to at most 3×; otherwise both keep
their unrestricted values; and whenever the resulting accessible budget is
non-positive the decision is rejected. -/
theorem budget_zone_restriction (d : TradeDecision) (p : PortfolioState)
    (report : IndicatorReport) (cp : ℚ)
    (hact : d.action = Action.LONG ∨ d.action = Action.SHORT)
    (hbud : 0 ≤ p.current_budget) :
    (defaultRM.dips_beyond_free p ∧ clamp_confidence d < 3/4 →
      defaultRM.accessible_after_zone d p =
        max 0 ((defaultRM.compute_budget_zones p).free - p.total_margin_in_use) ∧
      defaultRM.lev_after_zone d p = min (defaultRM.lev_after_cap d) 3) ∧
    (¬(defaultRM.dips_beyond_free p ∧ clamp_confidence d < 3/4) →
      defaultRM.accessible_after_zone d p =
        (defaultRM.compute_budget_zones p).accessible ∧
      defaultRM.lev_after_zone d p = defaultRM.lev_after_cap d) ∧
    (defaultRM.accessible_after_zone d p ≤ 0 →
      (defaultRM.validate_decision d p report cp).approved = false) := by
  have hconf : defaultRM.reserve.guarded_min_confidence = 3/4 := rfl
  refine ⟨fun hcond => ⟨?_, ?_⟩, fun hcond => ⟨?_, ?_⟩, fun hacc => ?_⟩
  · unfold RiskManager.accessible_after_zone
    rw [if_pos (by rw [hconf]; exact hcond)]
    exact min_eq_right (free_remainder_le_accessible p hbud)
  · unfold RiskManager.lev_after_zone
    have hlev : defaultRM.reserve.guarded_max_leverage = 3 := rfl
    by_cases h3 : (3:ℚ) < defaultRM.lev_after_cap d
    · rw [if_pos ⟨hcond.1, by rw [hconf]; exact hcond.2, by rw [hlev]; exact h3⟩, hlev]
    · rw [if_neg (by rw [hconf, hlev]; tauto), min_eq_left (by linarith)]
  · unfold RiskManager.accessible_after_zone
    rw [if_neg (by rw [hconf]; exact hcond)]
  · unfold RiskManager.lev_after_zone
    rw [if_neg (by rw [hconf]; tauto)]
  · unfold RiskManager.validate_decision
    have h0 : ¬(d.action = Action.HOLD ∨ d.action = Action.CLOSE) := by
      rcases hact with h | h <;> simp [h]
    rw [if_neg h0]
    by_cases h1 : defaultRM.risk.drawdown_halt_pct ≤ p.drawdown_from_peak
    · rw [if_pos h1]; rfl
    rw [if_neg h1]
    by_cases h2 : clamp_confidence d < 1/10
    · rw [if_pos h2]; rfl
    rw [if_neg h2, if_pos hacc]
    rfl

/-- Scenario S1's decision: LONG at confidence 0.4 with a 2%-away stop. -/
def decisionS1 : TradeDecision :=
  { symbol := "PERP_ETH_USDC", action := Action.LONG, leverage := 10
    quantity := 1/10, stop_loss := 2940, take_profit := 3120, confidence := 2/5 }

/-- The fresh default portfolio (equity 1000, no trades). -/
def freshPortfolio : PortfolioState := {}

/-- An indicator report whose 15m ATR is 30. -/
def reportATR30 : IndicatorReport :=
  { timeframes := [("15m", { atr_14 := 30 })] }

/-- Witness for C3 at scenario S1 (fresh portfolio, confidence 0.4). -/
theorem budget_zone_restriction_witness :
    (defaultRM.dips_beyond_free freshPortfolio ∧ clamp_confidence decisionS1 < 3/4 →
      defaultRM.accessible_after_zone decisionS1 freshPortfolio =
        max 0 ((defaultRM.compute_budget_zones freshPortfolio).free -
          freshPortfolio.total_margin_in_use) ∧
      defaultRM.lev_after_zone decisionS1 freshPortfolio =
        min (defaultRM.lev_after_cap decisionS1) 3) ∧
    (¬(defaultRM.dips_beyond_free freshPortfolio ∧ clamp_confidence decisionS1 < 3/4) →
      defaultRM.accessible_after_zone decisionS1 freshPortfolio =
        (defaultRM.compute_budget_zones freshPortfolio).accessible ∧
      defaultRM.lev_after_zone decisionS1 freshPortfolio =
        defaultRM.lev_after_cap decisionS1) ∧
    (defaultRM.accessible_after_zone decisionS1 freshPortfolio ≤ 0 →
      (defaultRM.validate_decision decisionS1 freshPortfolio reportATR30 3000).approved
        = false) :=
  budget_zone_restriction decisionS1 freshPortfolio reportATR30 3000
    (Or.inl rfl) (by norm_num [freshPortfolio])

/-! ## Claim C4: risk/reward ratio layer (layer 6) -/

/-- The accessible budget of the fresh default portfolio: the free zone. -/
theorem fresh_accessible :
    (defaultRM.compute_budget_zones freshPortfolio).accessible = 700 := by
  rw [budget_zones_accessible_general]
  rw [if_neg (fun h => absurd h.1 (by decide)),
    if_neg (fun h => absurd h.1 (by decide))]
  rw [show freshPortfolio.current_budget = 1000 from rfl,
    show freshPortfolio.total_margin_in_use = 0 from rfl]
  rw [max_eq_right (by norm_num)]
  norm_num

/-- The free zone of the fresh default portfolio. -/
theorem fresh_free : (defaultRM.compute_budget_zones freshPortfolio).free = 700 := by
  show freshPortfolio.current_budget * defaultRM.reserve.free_pct = 700
  rw [show freshPortfolio.current_budget = 1000 from rfl,
    show defaultRM.reserve.free_pct = 7/10 from rfl]
  norm_num

/-- The fresh default portfolio dips beyond the free zone as soon as any
budget at all is requested (available 1000 > free 700). -/
theorem fresh_dips : defaultRM.dips_beyond_free freshPortfolio := by
  unfold RiskManager.dips_beyond_free
  rw [fresh_free, show freshPortfolio.available_budget = 1000 - 0 from rfl]
  norm_num

/-- C4 — on a LONG/SHORT decision with `take_profit > 0` that reaches the
risk/reward layer (no earlier layer rejected it), the required minimum
ratio is 1.5, raised to 2.0 exactly when the accessible budget dips beyond
the free zone, and the layer rejects the decision precisely when
`rr_ratio < min_rr` (the `rrBelowMin` reason appears in the result iff the
ratio is below the minimum, and in that case the decision is not
approved). -/
theorem rr_layer_rejects_iff (d : TradeDecision) (p : PortfolioState)
    (report : IndicatorReport) (cp : ℚ)
    (hact : d.action = Action.LONG ∨ d.action = Action.SHORT)
    (htp : 0 < d.take_profit)
    (h1 : p.drawdown_from_peak < 1/5)
    (h2 : 1/10 ≤ clamp_confidence d)
    (h3 : 0 < defaultRM.accessible_after_zone d p)
    (h4 : 0 < d.stop_loss)
    (h5 : ¬(d.action = Action.LONG ∧ cp ≤ d.stop_loss))
    (h6 : ¬(d.action = Action.SHORT ∧ d.stop_loss ≤ cp))
    (h7 : ¬(0 < RiskManager.get_atr report ∧
      sl_distance d cp / RiskManager.get_atr report < 1/2))
    (h8 : ¬(0 < RiskManager.get_atr report ∧
      3 < sl_distance d cp / RiskManager.get_atr report)) :
    (defaultRM.min_rr d p =
      if (defaultRM.compute_budget_zones p).free < defaultRM.accessible_after_zone d p
      then 2 else 3/2) ∧
    (Reason.rrBelowMin ∈ (defaultRM.validate_decision d p report cp).rejection_reasons
      ↔ rr_ratio d cp < defaultRM.min_rr d p) ∧
    (rr_ratio d cp < defaultRM.min_rr d p →
      (defaultRM.validate_decision d p report cp).approved = false) := by
  have hminrr : defaultRM.min_rr d p =
      if (defaultRM.compute_budget_zones p).free < defaultRM.accessible_after_zone d p
      then 2 else 3/2 := by
    unfold RiskManager.min_rr
    split_ifs with h
    · rw [show defaultRM.reserve.guarded_min_rr = 2 from rfl]
      exact max_eq_right (by norm_num)
    · rfl
  refine ⟨hminrr, ?_, ?_⟩ <;>
  · unfold RiskManager.validate_decision
    have h0 : ¬(d.action = Action.HOLD ∨ d.action = Action.CLOSE) := by
      rcases hact with h | h <;> simp [h]
    have e1 : defaultRM.risk.drawdown_halt_pct = (1:ℚ)/5 := rfl
    have e2 : defaultRM.risk.min_sl_atr_multiple = (1:ℚ)/2 := rfl
    have e3 : defaultRM.risk.max_sl_atr_multiple = (3:ℚ) := rfl
    have n1 : ¬(defaultRM.risk.drawdown_halt_pct ≤ p.drawdown_from_peak) := by
      rw [e1]; exact not_le.mpr h1
    have n7 : ¬(0 < RiskManager.get_atr report ∧
        sl_distance d cp / RiskManager.get_atr report <
          defaultRM.risk.min_sl_atr_multiple) := by
      rw [e2]; exact h7
    have n8 : ¬(0 < RiskManager.get_atr report ∧
        defaultRM.risk.max_sl_atr_multiple <
          sl_distance d cp / RiskManager.get_atr report) := by
      rw [e3]; exact h8
    rw [if_neg h0, if_neg n1, if_neg (not_lt.mpr h2), if_neg (not_le.mpr h3),
      if_neg (not_le.mpr h4), if_neg h5, if_neg h6, if_neg n7, if_neg n8]
    by_cases hrr : rr_ratio d cp < defaultRM.min_rr d p
    · rw [if_pos ⟨htp, hrr⟩]
      simp [rejectedWith, hrr]
    · rw [if_neg (fun h => hrr h.2)]
      rcases hpos : p.get_positions_for_symbol d.symbol with _ | ⟨pos, rest⟩ <;>
        split_ifs <;>
        simp_all [rejectedWith, RiskManager.approvedResult,
          RiskManager.info_reasons] <;>
        split_ifs <;> simp_all

/-- The fresh portfolio has zero drawdown. -/
theorem fresh_drawdown : freshPortfolio.drawdown_from_peak = 0 := by
  unfold PortfolioState.drawdown_from_peak
  rw [show freshPortfolio.peak_budget = 1000 from rfl,
    show freshPortfolio.current_budget = 1000 from rfl]
  rw [if_neg (by norm_num)]
  norm_num

/-- On the fresh portfolio the size multiplier stays 1. -/
theorem fresh_size_multiplier : defaultRM.size_multiplier freshPortfolio = 1 := by
  unfold RiskManager.size_multiplier
  rw [fresh_drawdown, show defaultRM.risk.drawdown_reduce_pct = 1/10 from rfl]
  rw [if_neg (by norm_num)]

/-- On the fresh portfolio no informational reason is recorded. -/
theorem fresh_info_reasons : defaultRM.info_reasons freshPortfolio = [] := by
  unfold RiskManager.info_reasons
  rw [fresh_drawdown, show defaultRM.risk.drawdown_reduce_pct = 1/10 from rfl]
  rw [if_neg (by norm_num)]

/-- For any decision with clamped confidence below 0.75, the fresh
portfolio's accessible budget after the zone restriction is the full free
zone, 700. -/
theorem access_fresh (d : TradeDecision) (h : clamp_confidence d < 3/4) :
    defaultRM.accessible_after_zone d freshPortfolio = 700 := by
  unfold RiskManager.accessible_after_zone
  rw [if_pos ⟨fresh_dips, h⟩]
  rw [fresh_accessible, fresh_free,
    show freshPortfolio.total_margin_in_use = 0 from rfl]
  rw [sub_zero, max_eq_right (by norm_num), min_self]

/-- The report with 15m ATR 30 yields ATR 30. -/
theorem atr_report30 : RiskManager.get_atr reportATR30 = 30 := by
  unfold RiskManager.get_atr reportATR30
  rfl

/-- Any decision with stop-loss 2940 at price 3000 has distance 60. -/
theorem sl_distance_2940 (d : TradeDecision) (h : d.stop_loss = 2940) :
    sl_distance d 3000 = 60 := by
  unfold sl_distance
  rw [h]
  norm_num [abs_of_nonneg]

/-- For a sub-0.75-confidence decision on the fresh portfolio, the minimum
risk/reward stays at the base 1.5 (the restricted accessible budget equals
the free zone). -/
theorem min_rr_fresh (d : TradeDecision) (h : clamp_confidence d < 3/4) :
    defaultRM.min_rr d freshPortfolio = 3/2 := by
  unfold RiskManager.min_rr
  rw [access_fresh d h, fresh_free]
  rw [if_neg (lt_irrefl 700)]

/-- A LONG whose take-profit is only half the stop distance away
(rr = 0.5 < 1.5). -/
def decisionRRLow : TradeDecision :=
  { symbol := "PERP_ETH_USDC", action := Action.LONG, leverage := 5
    quantity := 1/10, stop_loss := 2940, take_profit := 3030, confidence := 3/5 }

/-- The clamped confidence of `decisionRRLow`. -/
theorem clamp_decisionRRLow : clamp_confidence decisionRRLow = 3/5 := by
  unfold clamp_confidence
  rw [show decisionRRLow.confidence = 3/5 from rfl]
  rw [min_eq_right (by norm_num), max_eq_right (by norm_num)]

/-- The risk/reward ratio of `decisionRRLow` at price 3000 is 1/2. -/
theorem rr_ratio_decisionRRLow : rr_ratio decisionRRLow 3000 = 1/2 := by
  unfold rr_ratio
  rw [sl_distance_2940 decisionRRLow rfl,
    show decisionRRLow.take_profit = 3030 from rfl]
  rw [if_pos (by norm_num)]
  rw [show |(3030:ℚ) - 3000| = 30 by norm_num [abs_of_nonneg]]
  norm_num

/-- Witness for C4: `decisionRRLow` reaches the risk/reward layer on the
fresh portfolio and is rejected there (rr 0.5 < 1.5). -/
theorem rr_layer_rejects_iff_witness :
    (defaultRM.min_rr decisionRRLow freshPortfolio =
      if (defaultRM.compute_budget_zones freshPortfolio).free <
          defaultRM.accessible_after_zone decisionRRLow freshPortfolio
      then 2 else 3/2) ∧
    (Reason.rrBelowMin ∈
        (defaultRM.validate_decision decisionRRLow freshPortfolio reportATR30
          3000).rejection_reasons
      ↔ rr_ratio decisionRRLow 3000 < defaultRM.min_rr decisionRRLow freshPortfolio) ∧
    (rr_ratio decisionRRLow 3000 < defaultRM.min_rr decisionRRLow freshPortfolio →
      (defaultRM.validate_decision decisionRRLow freshPortfolio reportATR30
        3000).approved = false) := by
  have hconf : clamp_confidence decisionRRLow < 3/4 := by
    rw [clamp_decisionRRLow]; norm_num
  refine rr_layer_rejects_iff decisionRRLow freshPortfolio reportATR30 3000
    (Or.inl rfl) ?_ ?_ ?_ ?_ ?_ ?_ ?_ ?_ ?_
  · show (0:ℚ) < 3030; norm_num
  · rw [fresh_drawdown]; norm_num
  · rw [clamp_decisionRRLow]; norm_num
  · rw [access_fresh decisionRRLow hconf]; norm_num
  · show (0:ℚ) < 2940; norm_num
  · exact fun h => absurd h.2 (by norm_num : ¬((3000:ℚ) ≤ 2940))
  · exact fun h => Action.noConfusion h.1
  · rw [atr_report30, sl_distance_2940 decisionRRLow rfl]
    exact fun h => absurd h.2 (by norm_num)
  · rw [atr_report30, sl_distance_2940 decisionRRLow rfl]
    exact fun h => absurd h.2 (by norm_num)

/-! ## Claim C1: safety of approved LONG/SHORT decisions -/

/-- The zone-restricted accessible budget never exceeds the portfolio's
unrestricted accessible budget. -/
theorem accessible_after_zone_le (rm : RiskManager) (d : TradeDecision)
    (p : PortfolioState) :
    rm.accessible_after_zone d p ≤ (rm.compute_budget_zones p).accessible := by
  unfold RiskManager.accessible_after_zone
  split_ifs
  · exact min_le_left _ _
  · exact le_rfl

/-- The zone-clamped leverage never exceeds the confidence-capped one. -/
theorem lev_after_zone_le (rm : RiskManager) (d : TradeDecision)
    (p : PortfolioState) :
    rm.lev_after_zone d p ≤ rm.lev_after_cap d := by
  unfold RiskManager.lev_after_zone
  split_ifs
  · exact min_le_left _ _
  · exact le_rfl

/-- The confidence-capped leverage never exceeds the leverage-scale cap. -/
theorem lev_after_cap_le (rm : RiskManager) (d : TradeDecision) :
    rm.lev_after_cap d ≤
      rm.leverage_scale.max_leverage_for (clamp_confidence d) :=
  min_le_right _ _

/-- The budget-clamped margin never exceeds the accessible budget. -/
theorem margin_fit_le (rm : RiskManager) (d : TradeDecision)
    (p : PortfolioState) (cp : ℚ) :
    rm.margin_fit d p cp ≤ rm.accessible_after_zone d p := by
  unfold RiskManager.margin_fit
  split_ifs with h
  · exact le_rfl
  · exact le_of_not_lt h

/-- A positive sized quantity forces a positive price and a positive
pre-clamp margin. -/
theorem quantity_sized_pos (rm : RiskManager) (d : TradeDecision)
    (p : PortfolioState) (cp : ℚ) (h : 0 < rm.quantity_sized d p cp) :
    0 < cp ∧ 0 < rm.margin_raw d p cp := by
  have hmq : 0 < rm.max_quantity d p cp := by
    by_contra hc
    unfold RiskManager.quantity_sized at h
    rw [if_neg hc] at h
    exact lt_irrefl 0 h
  have hsl : 0 < sl_pct d cp := by
    by_contra hc
    unfold RiskManager.max_quantity at hmq
    rw [if_neg hc] at hmq
    exact lt_irrefl 0 hmq
  have hcp : 0 < cp := by
    by_contra hc
    unfold sl_pct at hsl
    rw [if_neg hc] at hsl
    exact lt_irrefl 0 hsl
  refine ⟨hcp, ?_⟩
  have hnot : 0 < rm.quantity_sized d p cp * cp := mul_pos h hcp
  unfold RiskManager.margin_raw
  dsimp only
  split_ifs with hlev
  · exact div_pos hnot hlev
  · exact hnot

/-- Structure of an approved LONG/SHORT validation: the result is the
assembled `approvedResult` and every rejection guard was passed. -/
theorem validate_approved_struct (rm : RiskManager) (d : TradeDecision)
    (p : PortfolioState) (report : IndicatorReport) (cp : ℚ)
    (hact : d.action = Action.LONG ∨ d.action = Action.SHORT)
    (happ : (rm.validate_decision d p report cp).approved = true) :
    rm.validate_decision d p report cp = rm.approvedResult d p cp ∧
    0 < rm.accessible_after_zone d p ∧
    ¬(0 < RiskManager.get_atr report ∧
      sl_distance d cp / RiskManager.get_atr report < rm.risk.min_sl_atr_multiple) ∧
    ¬(0 < RiskManager.get_atr report ∧
      rm.risk.max_sl_atr_multiple < sl_distance d cp / RiskManager.get_atr report) ∧
    0 < rm.quantity_sized d p cp ∧
    ¬(rm.max_exposure p < p.total_margin_in_use + rm.margin_fit d p cp ∧
      max 0 (rm.max_exposure p - p.total_margin_in_use) ≤ 0) ∧
    p.get_positions_for_symbol d.symbol = [] := by
  have h0 : ¬(d.action = Action.HOLD ∨ d.action = Action.CLOSE) := by
    rcases hact with h | h <;> simp [h]
  unfold RiskManager.validate_decision at happ ⊢
  rw [if_neg h0] at happ ⊢
  by_cases h1 : rm.risk.drawdown_halt_pct ≤ p.drawdown_from_peak
  · rw [if_pos h1] at happ; exact absurd happ (by simp [rejectedWith])
  rw [if_neg h1] at happ ⊢
  by_cases h2 : clamp_confidence d < 1/10
  · rw [if_pos h2] at happ; exact absurd happ (by simp [rejectedWith])
  rw [if_neg h2] at happ ⊢
  by_cases h3 : rm.accessible_after_zone d p ≤ 0
  · rw [if_pos h3] at happ; exact absurd happ (by simp [rejectedWith])
  rw [if_neg h3] at happ ⊢
  by_cases h4 : d.stop_loss ≤ 0
  · rw [if_pos h4] at happ; exact absurd happ (by simp [rejectedWith])
  rw [if_neg h4] at happ ⊢
  by_cases h5 : d.action = Action.LONG ∧ cp ≤ d.stop_loss
  · rw [if_pos h5] at happ; exact absurd happ (by simp [rejectedWith])
  rw [if_neg h5] at happ ⊢
  by_cases h6 : d.action = Action.SHORT ∧ d.stop_loss ≤ cp
  · rw [if_pos h6] at happ; exact absurd happ (by simp [rejectedWith])
  rw [if_neg h6] at happ ⊢
  by_cases h7 : 0 < RiskManager.get_atr report ∧
      sl_distance d cp / RiskManager.get_atr report < rm.risk.min_sl_atr_multiple
  · rw [if_pos h7] at happ; exact absurd happ (by simp [rejectedWith])
  rw [if_neg h7] at happ ⊢
  by_cases h8 : 0 < RiskManager.get_atr report ∧
      rm.risk.max_sl_atr_multiple < sl_distance d cp / RiskManager.get_atr report
  · rw [if_pos h8] at happ; exact absurd happ (by simp [rejectedWith])
  rw [if_neg h8] at happ ⊢
  by_cases h9 : 0 < d.take_profit ∧ rr_ratio d cp < rm.min_rr d p
  · rw [if_pos h9] at happ; exact absurd happ (by simp [rejectedWith])
  rw [if_neg h9] at happ ⊢
  by_cases h10 : rm.quantity_sized d p cp ≤ 0
  · rw [if_pos h10] at happ; exact absurd happ (by simp [rejectedWith])
  rw [if_neg h10] at happ ⊢
  by_cases h11 : rm.max_exposure p < p.total_margin_in_use + rm.margin_fit d p cp ∧
      max 0 (rm.max_exposure p - p.total_margin_in_use) ≤ 0
  · rw [if_pos h11] at happ; exact absurd happ (by simp [rejectedWith])
  rw [if_neg h11] at happ ⊢
  rcases hpos : p.get_positions_for_symbol d.symbol with _ | ⟨pos, rest⟩
  · exact ⟨rfl, lt_of_not_le h3, h7, h8, lt_of_not_le h10, h11, rfl⟩
  · rw [hpos] at happ
    by_cases hside : pos.side = d.action
    · simp [hside, rejectedWith] at happ
    · simp [hside, rejectedWith] at happ

/-- C1 — every approved LONG/SHORT decision satisfies: the stop distance is
within [0.5, 3.0] × ATR whenever the report's best available ATR is
positive; the required margin fits within the portfolio's accessible
budget; total margin in use (including this trade) stays within 80% of the
current budget; the adjusted leverage respects the confidence-scale cap for
the clamped confidence; and the portfolio has no open position on the
decision's symbol. -/
theorem approved_entry_safety (d : TradeDecision) (p : PortfolioState)
    (report : IndicatorReport) (cp : ℚ)
    (hact : d.action = Action.LONG ∨ d.action = Action.SHORT)
    (happ : (defaultRM.validate_decision d p report cp).approved = true) :
    (0 < RiskManager.get_atr report →
      1/2 ≤ sl_distance d cp / RiskManager.get_atr report ∧
      sl_distance d cp / RiskManager.get_atr report ≤ 3) ∧
    (defaultRM.validate_decision d p report cp).margin_required ≤
      (defaultRM.compute_budget_zones p).accessible ∧
    p.total_margin_in_use +
        (defaultRM.validate_decision d p report cp).margin_required ≤
      (4/5) * p.current_budget ∧
    (defaultRM.validate_decision d p report cp).adjusted_leverage ≤
      defaultRM.leverage_scale.max_leverage_for (clamp_confidence d) ∧
    p.get_positions_for_symbol d.symbol = [] := by
  obtain ⟨hval, hacc, h7, h8, hqty, h11, hpos⟩ :=
    validate_approved_struct defaultRM d p report cp hact happ
  have e2 : defaultRM.risk.min_sl_atr_multiple = (1:ℚ)/2 := rfl
  have e3 : defaultRM.risk.max_sl_atr_multiple = (3:ℚ) := rfl
  have emax : defaultRM.max_exposure p = 4/5 * p.current_budget := by
    show p.current_budget * defaultRM.risk.max_total_exposure_pct = _
    rw [show defaultRM.risk.max_total_exposure_pct = (4:ℚ)/5 from rfl]
    ring
  have hmarginraw : 0 < defaultRM.margin_raw d p cp :=
    (quantity_sized_pos defaultRM d p cp hqty).2
  have hfitpos : 0 < defaultRM.margin_fit d p cp := by
    unfold RiskManager.margin_fit
    split_ifs with h
    · exact hacc
    · exact hmarginraw
  have hfinal_le_fit : defaultRM.margin_final d p cp ≤ defaultRM.margin_fit d p cp := by
    unfold RiskManager.margin_final
    split_ifs with h
    · exact max_le (le_of_lt hfitpos) (by linarith [h])
    · exact le_rfl
  refine ⟨?_, ?_, ?_, ?_, hpos⟩
  · intro hatr
    constructor
    · by_contra hc
      exact h7 ⟨hatr, by rw [e2]; exact lt_of_not_le hc⟩
    · by_contra hc
      exact h8 ⟨hatr, by rw [e3]; exact lt_of_not_le hc⟩
  · rw [hval]
    show defaultRM.margin_final d p cp ≤ _
    calc defaultRM.margin_final d p cp
        ≤ defaultRM.margin_fit d p cp := hfinal_le_fit
      _ ≤ defaultRM.accessible_after_zone d p := margin_fit_le _ _ _ _
      _ ≤ (defaultRM.compute_budget_zones p).accessible :=
          accessible_after_zone_le _ _ _
  · rw [hval]
    show p.total_margin_in_use + defaultRM.margin_final d p cp ≤ _
    unfold RiskManager.margin_final
    split_ifs with h
    · have hallow : ¬(max 0 (defaultRM.max_exposure p - p.total_margin_in_use) ≤ 0) :=
        fun hc => h11 ⟨h, hc⟩
      have : max 0 (defaultRM.max_exposure p - p.total_margin_in_use) =
          defaultRM.max_exposure p - p.total_margin_in_use := by
        rcases max_cases 0 (defaultRM.max_exposure p - p.total_margin_in_use) with
          ⟨he, _⟩ | ⟨he, _⟩
        · exact absurd (le_of_eq he) hallow
        · exact he
      rw [this]
      linarith [emax]
    · linarith [emax, not_lt.mp h]
  · rw [hval]
    show defaultRM.lev_after_zone d p ≤ _
    exact le_trans (lev_after_zone_le _ _ _) (lev_after_cap_le _ _)

/-- The clamped confidence of scenario S1's decision. -/
theorem clamp_decisionS1 : clamp_confidence decisionS1 = 2/5 := by
  unfold clamp_confidence
  rw [show decisionS1.confidence = 2/5 from rfl]
  rw [min_eq_right (by norm_num), max_eq_right (by norm_num)]

/-- At confidence 0.4 the leverage scale caps at 2×. -/
theorem max_leverage_at_04 :
    defaultRM.leverage_scale.max_leverage_for (2/5) = 2 := by
  unfold LeverageScale.max_leverage_for
  rw [show defaultRM.leverage_scale.thresholds =
    [((0:ℚ), (3:ℚ)/10, (1:ℚ)), (3/10, 1/2, 2), (1/2, 7/10, 5), (7/10, 17/20, 7),
     (17/20, 101/100, 10)] from rfl]
  rw [List.find?_cons_of_neg _ (by
    simp only [Bool.and_eq_true, decide_eq_true_eq, not_and]
    intro _
    norm_num)]
  rw [List.find?_cons_of_pos _ (by
    simp only [Bool.and_eq_true, decide_eq_true_eq]
    norm_num)]

/-- The confidence-capped leverage at S1: min(10, 2) = 2. -/
theorem lev_cap_S1 : defaultRM.lev_after_cap decisionS1 = 2 := by
  unfold RiskManager.lev_after_cap
  rw [clamp_decisionS1, max_leverage_at_04,
    show decisionS1.leverage = 10 from rfl]
  exact min_eq_right (by norm_num)

/-- The zone clamp leaves S1's leverage at 2 (already below 3×). -/
theorem lev_zone_S1 : defaultRM.lev_after_zone decisionS1 freshPortfolio = 2 := by
  unfold RiskManager.lev_after_zone
  rw [if_neg (fun h => absurd h.2.2 (by
    rw [lev_cap_S1, show defaultRM.reserve.guarded_max_leverage = 3 from rfl]
    norm_num))]
  exact lev_cap_S1

/-- The stop-loss percentage at S1: 60/3000 = 1/50. -/
theorem sl_pct_S1 : sl_pct decisionS1 3000 = 1/50 := by
  unfold sl_pct
  rw [if_pos (by norm_num : (0:ℚ) < 3000), sl_distance_2940 decisionS1 rfl]
  norm_num

/-- The 2%-rule loss budget at S1: 700 × 0.02 × 1 = 14. -/
theorem max_loss_budget_S1 :
    defaultRM.max_loss_budget decisionS1 freshPortfolio = 14 := by
  unfold RiskManager.max_loss_budget
  rw [access_fresh decisionS1 (by rw [clamp_decisionS1]; norm_num),
    fresh_size_multiplier,
    show defaultRM.risk.max_loss_per_trade_pct = 1/50 from rfl]
  norm_num

/-- The maximum quantity at S1: 14 / (3000 × 1/50) = 7/30. -/
theorem max_quantity_S1 :
    defaultRM.max_quantity decisionS1 freshPortfolio 3000 = 7/30 := by
  unfold RiskManager.max_quantity
  rw [sl_pct_S1, max_loss_budget_S1, if_pos (by norm_num : (0:ℚ) < 1/50)]
  norm_num

/-- The sized quantity at S1: min(0.1, 7/30) = 0.1. -/
theorem quantity_sized_S1 :
    defaultRM.quantity_sized decisionS1 freshPortfolio 3000 = 1/10 := by
  unfold RiskManager.quantity_sized
  rw [max_quantity_S1, if_pos (by norm_num : (0:ℚ) < 7/30),
    show decisionS1.quantity = 1/10 from rfl]
  exact min_eq_left (by norm_num)

/-- The raw margin at S1: (0.1 × 3000) / 2 = 150. -/
theorem margin_raw_S1 :
    defaultRM.margin_raw decisionS1 freshPortfolio 3000 = 150 := by
  unfold RiskManager.margin_raw
  dsimp only
  rw [quantity_sized_S1, lev_zone_S1, if_pos (by norm_num : (0:ℚ) < 2)]
  norm_num

/-- The budget-clamped margin at S1 stays 150 (≤ 700 accessible). -/
theorem margin_fit_S1 :
    defaultRM.margin_fit decisionS1 freshPortfolio 3000 = 150 := by
  unfold RiskManager.margin_fit
  rw [margin_raw_S1, access_fresh decisionS1 (by rw [clamp_decisionS1]; norm_num)]
  rw [if_neg (by norm_num)]

/-- The exposure limit at the fresh portfolio: 1000 × 0.8 = 800. -/
theorem max_exposure_fresh : defaultRM.max_exposure freshPortfolio = 800 := by
  unfold RiskManager.max_exposure
  rw [show freshPortfolio.current_budget = 1000 from rfl,
    show defaultRM.risk.max_total_exposure_pct = 4/5 from rfl]
  norm_num

/-- Scenario S1 passes every validation layer and is approved. -/
theorem validateS1_eval :
    defaultRM.validate_decision decisionS1 freshPortfolio reportATR30 3000 =
      defaultRM.approvedResult decisionS1 freshPortfolio 3000 := by
  have hconf : clamp_confidence decisionS1 < 3/4 := by
    rw [clamp_decisionS1]; norm_num
  unfold RiskManager.validate_decision
  rw [if_neg (by simp [decisionS1] :
    ¬(decisionS1.action = Action.HOLD ∨ decisionS1.action = Action.CLOSE))]
  rw [if_neg (by
    rw [fresh_drawdown, show defaultRM.risk.drawdown_halt_pct = 1/5 from rfl]
    norm_num)]
  rw [if_neg (by rw [clamp_decisionS1]; norm_num)]
  rw [if_neg (by
    rw [access_fresh decisionS1 hconf]
    norm_num)]
  rw [if_neg (by
    rw [show decisionS1.stop_loss = 2940 from rfl]
    norm_num)]
  rw [if_neg (fun h => absurd h.2 (by
    rw [show decisionS1.stop_loss = 2940 from rfl]
    norm_num))]
  rw [if_neg (fun h => Action.noConfusion h.1)]
  rw [if_neg (by
    rw [atr_report30, sl_distance_2940 decisionS1 rfl,
      show defaultRM.risk.min_sl_atr_multiple = 1/2 from rfl]
    exact fun h => absurd h.2 (by norm_num))]
  rw [if_neg (by
    rw [atr_report30, sl_distance_2940 decisionS1 rfl,
      show defaultRM.risk.max_sl_atr_multiple = 3 from rfl]
    exact fun h => absurd h.2 (by norm_num))]
  rw [if_neg (by
    rw [min_rr_fresh decisionS1 hconf]
    refine fun h => absurd h.2 (not_lt.mpr ?_)
    unfold rr_ratio
    rw [sl_distance_2940 decisionS1 rfl,
      show decisionS1.take_profit = 3120 from rfl,
      if_pos (by norm_num : (0:ℚ) < 60)]
    rw [show |(3120:ℚ) - 3000| = 120 by norm_num [abs_of_nonneg]]
    norm_num)]
  rw [if_neg (by rw [quantity_sized_S1]; norm_num)]
  rw [if_neg (fun h => absurd h.1 (by
    rw [margin_fit_S1, max_exposure_fresh,
      show freshPortfolio.total_margin_in_use = 0 from rfl]
    norm_num))]
  rfl

/-- Witness for C1 at scenario S1: the approved LONG at confidence 0.4
satisfies every safety condition. -/
theorem approved_entry_safety_witness :
    (0 < RiskManager.get_atr reportATR30 →
      1/2 ≤ sl_distance decisionS1 3000 / RiskManager.get_atr reportATR30 ∧
      sl_distance decisionS1 3000 / RiskManager.get_atr reportATR30 ≤ 3) ∧
    (defaultRM.validate_decision decisionS1 freshPortfolio reportATR30
        3000).margin_required ≤
      (defaultRM.compute_budget_zones freshPortfolio).accessible ∧
    freshPortfolio.total_margin_in_use +
        (defaultRM.validate_decision decisionS1 freshPortfolio reportATR30
          3000).margin_required ≤
      (4/5) * freshPortfolio.current_budget ∧
    (defaultRM.validate_decision decisionS1 freshPortfolio reportATR30
        3000).adjusted_leverage ≤
      defaultRM.leverage_scale.max_leverage_for (clamp_confidence decisionS1) ∧
    freshPortfolio.get_positions_for_symbol decisionS1.symbol = [] :=
  approved_entry_safety decisionS1 freshPortfolio reportATR30 3000
    (Or.inl rfl) (by rw [validateS1_eval]; rfl)

/-! ## Claim C10: validation does not mutate the portfolio

`RiskManager.validate_decision` contains no assignment to any portfolio
attribute; every use of the portfolio is a read.  To state this as a frame
property, the method is re-expressed with the portfolio state threaded
explicitly through each access (each read returns the value together with
the state), and the final state is related to the input. -/

/-- `RiskManager.validate_decision` with the portfolio state threaded
through every access the source performs. -/
def RiskManager.validate_decision_state (rm : RiskManager) (d : TradeDecision)
    (report : IndicatorReport) (cp : ℚ) (p0 : PortfolioState) :
    ValidatedDecision × PortfolioState :=
  if d.action = Action.HOLD ∨ d.action = Action.CLOSE then
    ({ original := d, approved := true, adjusted_leverage := d.leverage
       adjusted_quantity := d.quantity }, p0)
  else
    let (drawdown, p1) := (p0.drawdown_from_peak, p0)
    if rm.risk.drawdown_halt_pct ≤ drawdown then
      (rejectedWith d [Reason.halted], p1)
    else
    let (info, p2) := (rm.info_reasons p1, p1)
    if clamp_confidence d < 1/10 then
      (rejectedWith d (info ++ [Reason.confidenceTooLow]), p2)
    else
    let (acc, p3) := (rm.accessible_after_zone d p2, p2)
    if acc ≤ 0 then
      (rejectedWith d (info ++ [Reason.noAccessibleBudget]), p3)
    else if d.stop_loss ≤ 0 then
      (rejectedWith d (info ++ [Reason.noStopLoss]), p3)
    else if d.action = Action.LONG ∧ cp ≤ d.stop_loss then
      (rejectedWith d (info ++ [Reason.longSLNotBelow]), p3)
    else if d.action = Action.SHORT ∧ d.stop_loss ≤ cp then
      (rejectedWith d (info ++ [Reason.shortSLNotAbove]), p3)
    else if 0 < RiskManager.get_atr report ∧
        sl_distance d cp / RiskManager.get_atr report < rm.risk.min_sl_atr_multiple then
      (rejectedWith d (info ++ [Reason.slTooTight]), p3)
    else if 0 < RiskManager.get_atr report ∧
        rm.risk.max_sl_atr_multiple < sl_distance d cp / RiskManager.get_atr report then
      (rejectedWith d (info ++ [Reason.slTooWide]), p3)
    else
    let (minrr, p4) := (rm.min_rr d p3, p3)
    if 0 < d.take_profit ∧ rr_ratio d cp < minrr then
      (rejectedWith d (info ++ [Reason.rrBelowMin]), p4)
    else
    let (qty, p5) := (rm.quantity_sized d p4 cp, p4)
    if qty ≤ 0 then
      (rejectedWith d (info ++ [Reason.sizeRoundsToZero]), p5)
    else
    let (mfit, p6) := (rm.margin_fit d p5 cp, p5)
    let (mexp, p7) := (rm.max_exposure p6, p6)
    let (margin_used, p8) := (p7.total_margin_in_use, p7)
    if mexp < margin_used + mfit ∧ max 0 (mexp - margin_used) ≤ 0 then
      (rejectedWith d (info ++ [Reason.exposureLimitReached]), p8)
    else
    let (existing, p9) := (p8.get_positions_for_symbol d.symbol, p8)
    match existing with
    | [] => (rm.approvedResult d p9 cp, p9)
    | pos :: _ =>
      if pos.side = d.action then
        (rejectedWith d (info ++ [Reason.alreadyHaveSide]), p9)
      else
        (rejectedWith d (info ++ [Reason.oppositeSide]), p9)

/-- C10 — validation is read-only on the portfolio: the threaded state that
comes out of `validate_decision_state` has the same open positions, closed
trades, current budget, peak budget and initial budget as the input, for
every decision (approved or rejected), and its result coincides with
`validate_decision`. -/
theorem validate_decision_frame (rm : RiskManager) (d : TradeDecision)
    (p : PortfolioState) (report : IndicatorReport) (cp : ℚ) :
    ((rm.validate_decision_state d report cp p).2.open_positions =
        p.open_positions ∧
      (rm.validate_decision_state d report cp p).2.closed_trades =
        p.closed_trades ∧
      (rm.validate_decision_state d report cp p).2.current_budget =
        p.current_budget ∧
      (rm.validate_decision_state d report cp p).2.peak_budget =
        p.peak_budget ∧
      (rm.validate_decision_state d report cp p).2.initial_budget =
        p.initial_budget) ∧
    (rm.validate_decision_state d report cp p).1 =
      rm.validate_decision d p report cp := by
  unfold RiskManager.validate_decision_state RiskManager.validate_decision
  dsimp only
  by_cases h0 : d.action = Action.HOLD ∨ d.action = Action.CLOSE
  · simp only [if_pos h0]; exact ⟨⟨by simp, by simp, by simp, by simp, by simp⟩, by simp⟩
  simp only [if_neg h0]
  by_cases h1 : rm.risk.drawdown_halt_pct ≤ p.drawdown_from_peak
  · simp only [if_pos h1]; exact ⟨⟨by simp, by simp, by simp, by simp, by simp⟩, by simp⟩
  simp only [if_neg h1]
  by_cases h2 : clamp_confidence d < 1/10
  · simp only [if_pos h2]; exact ⟨⟨by simp, by simp, by simp, by simp, by simp⟩, by simp⟩
  simp only [if_neg h2]
  by_cases h3 : rm.accessible_after_zone d p ≤ 0
  · simp only [if_pos h3]; exact ⟨⟨by simp, by simp, by simp, by simp, by simp⟩, by simp⟩
  simp only [if_neg h3]
  by_cases h4 : d.stop_loss ≤ 0
  · simp only [if_pos h4]; exact ⟨⟨by simp, by simp, by simp, by simp, by simp⟩, by simp⟩
  simp only [if_neg h4]
  by_cases h5 : d.action = Action.LONG ∧ cp ≤ d.stop_loss
  · simp only [if_pos h5]; exact ⟨⟨by simp, by simp, by simp, by simp, by simp⟩, by simp⟩
  simp only [if_neg h5]
  by_cases h6 : d.action = Action.SHORT ∧ d.stop_loss ≤ cp
  · simp only [if_pos h6]; exact ⟨⟨by simp, by simp, by simp, by simp, by simp⟩, by simp⟩
  simp only [if_neg h6]
  by_cases h7 : 0 < RiskManager.get_atr report ∧
      sl_distance d cp / RiskManager.get_atr report < rm.risk.min_sl_atr_multiple
  · simp only [if_pos h7]; exact ⟨⟨by simp, by simp, by simp, by simp, by simp⟩, by simp⟩
  simp only [if_neg h7]
  by_cases h8 : 0 < RiskManager.get_atr report ∧
      rm.risk.max_sl_atr_multiple < sl_distance d cp / RiskManager.get_atr report
  · simp only [if_pos h8]; exact ⟨⟨by simp, by simp, by simp, by simp, by simp⟩, by simp⟩
  simp only [if_neg h8]
  by_cases h9 : 0 < d.take_profit ∧ rr_ratio d cp < rm.min_rr d p
  · simp only [if_pos h9]; exact ⟨⟨by simp, by simp, by simp, by simp, by simp⟩, by simp⟩
  simp only [if_neg h9]
  by_cases h10 : rm.quantity_sized d p cp ≤ 0
  · simp only [if_pos h10]; exact ⟨⟨by simp, by simp, by simp, by simp, by simp⟩, by simp⟩
  simp only [if_neg h10]
  by_cases h11 : rm.max_exposure p < p.total_margin_in_use + rm.margin_fit d p cp ∧
      max 0 (rm.max_exposure p - p.total_margin_in_use) ≤ 0
  · simp only [if_pos h11]; exact ⟨⟨by simp, by simp, by simp, by simp, by simp⟩, by simp⟩
  simp only [if_neg h11]
  rcases p.get_positions_for_symbol d.symbol with _ | ⟨pos, rest⟩
  · exact ⟨⟨by simp, by simp, by simp, by simp, by simp⟩, by simp⟩
  · by_cases hside : pos.side = d.action
    · simp only [if_pos hside]; exact ⟨⟨by simp, by simp, by simp, by simp, by simp⟩, by simp⟩
    · simp only [if_neg hside]; exact ⟨⟨by simp, by simp, by simp, by simp, by simp⟩, by simp⟩

/-! ## Claim C7: equity conservation and peak monotonicity -/

/-- A fresh `PortfolioState` with budget `b` (the constructor state). -/
def freshP (b : ℚ) : PortfolioState :=
  { initial_budget := b, current_budget := b, peak_budget := b }

/-- One call of the portfolio mutation API: `open_position` or
`close_position` (the latter addressed by index into the open list; an
out-of-range index corresponds to a call the source would refuse, and
leaves the state unchanged). -/
inductive PortfolioOp where
  | openPos (pos : Position)
  | closePos (idx : Nat) (exit_price : ℚ) (reason : String)

/-- Apply one portfolio operation. -/
def applyOp (s : PortfolioState) : PortfolioOp → PortfolioState
  | PortfolioOp.openPos pos => s.open_position pos
  | PortfolioOp.closePos i price reason =>
    match s.open_positions[i]? with
    | some pos => (s.close_position pos price reason).2
    | none => s

/-- One step preserves the equity-conservation and peak invariants. -/
theorem applyOp_preserves (s : PortfolioState) (op : PortfolioOp)
    (h1 : s.current_budget - s.initial_budget =
      (s.closed_trades.map ClosedTrade.pnl).sum)
    (h2 : s.current_budget ≤ s.peak_budget) :
    ((applyOp s op).current_budget - (applyOp s op).initial_budget =
      ((applyOp s op).closed_trades.map ClosedTrade.pnl).sum) ∧
    (applyOp s op).current_budget ≤ (applyOp s op).peak_budget := by
  cases op with
  | openPos pos =>
    simp only [applyOp, PortfolioState.open_position]
    exact ⟨h1, h2⟩
  | closePos i price reason =>
    simp only [applyOp]
    cases hidx : s.open_positions[i]? with
    | none => exact ⟨h1, h2⟩
    | some pos =>
      simp only [PortfolioState.close_position, PortfolioState.update_peak]
      split_ifs with hpk
      · constructor
        · simp only [List.map_append, List.sum_append, List.map_cons,
            List.map_nil, List.sum_cons, List.sum_nil]
          linarith
        · exact le_rfl
      · constructor
        · simp only [List.map_append, List.sum_append, List.map_cons,
            List.map_nil, List.sum_cons, List.sum_nil]
          linarith
        · exact le_of_not_lt hpk

/-- C7 — for every sequence of `open_position` / `close_position` calls
from a fresh portfolio, the realized PnL of the closed trades accounts
exactly for the change in `current_budget`, and `peak_budget` is always at
least `current_budget`. -/
theorem equity_conservation_and_peak (ops : List PortfolioOp) (b : ℚ) :
    ((ops.foldl applyOp (freshP b)).current_budget -
      (ops.foldl applyOp (freshP b)).initial_budget =
      ((ops.foldl applyOp (freshP b)).closed_trades.map ClosedTrade.pnl).sum) ∧
    (ops.foldl applyOp (freshP b)).current_budget ≤
      (ops.foldl applyOp (freshP b)).peak_budget := by
  suffices h : ∀ (l : List PortfolioOp) (s : PortfolioState),
      (s.current_budget - s.initial_budget =
        (s.closed_trades.map ClosedTrade.pnl).sum) →
      s.current_budget ≤ s.peak_budget →
      ((l.foldl applyOp s).current_budget - (l.foldl applyOp s).initial_budget =
        ((l.foldl applyOp s).closed_trades.map ClosedTrade.pnl).sum) ∧
      (l.foldl applyOp s).current_budget ≤ (l.foldl applyOp s).peak_budget by
    exact h ops (freshP b) (by simp [freshP]) (by simp [freshP])
  intro l
  induction l with
  | nil => exact fun s h1 h2 => ⟨h1, h2⟩
  | cons op rest ih =>
    intro s h1 h2
    have hstep := applyOp_preserves s op h1 h2
    exact ih (applyOp s op) hstep.1 hstep.2

/-! ## Claim C5: response parsing (`StrategyEngine._parse_response`)

The JSON layer is out of scope; the embedding starts from the decoded
`data["decisions"]` array (one `RawDecision` per entry, fields already
defaulted as in `dict.get`).  `_parse_response` then builds
`TradeDecision`s via `from_dict` (skipping entries whose action string is
not an `Action` value) and appends a synthetic HOLD for every configured
symbol not seen — it never drops decisions whose symbol is not
configured. -/

/-- One entry of the decoded `decisions` array, with the `dict.get`
defaults already applied. -/
structure RawDecision where
  symbol : String := ""
  action : String := "HOLD"
  leverage : ℚ := 1
  quantity : ℚ := 0
  stop_loss : ℚ := 0
  take_profit : ℚ := 0
  confidence : ℚ := 0
  reasoning : String := ""
  deriving DecidableEq, Repr

/-- Python's `str.upper()` restricted to its ASCII behaviour (all action
strings compared against are ASCII). -/
def pyUpper (s : String) : String := ⟨s.data.map Char.toUpper⟩

/-- The `Action(value)` enum constructor: `None` models the `ValueError`
raised for an unknown value. -/
def Action.ofValue (s : String) : Option Action :=
  if s = "LONG" then some Action.LONG
  else if s = "SHORT" then some Action.SHORT
  else if s = "HOLD" then some Action.HOLD
  else if s = "CLOSE" then some Action.CLOSE
  else none

/-- `TradeDecision.from_dict` from src/models/decision.py; `none` models
the `ValueError` path that `_parse_response` catches and skips. -/
def TradeDecision.from_dict (r : RawDecision) : Option TradeDecision :=
  (Action.ofValue (pyUpper r.action)).map fun a =>
    { symbol := r.symbol, action := a, leverage := r.leverage
      quantity := r.quantity, stop_loss := r.stop_loss
      take_profit := r.take_profit, confidence := r.confidence
      reasoning := r.reasoning }

/-- The decision-assembly step of `StrategyEngine._parse_response`
(src/strategy.py lines 393-409): decode each raw decision, then append a
synthetic HOLD for every configured symbol not present. -/
def parse_decisions (raws : List RawDecision) (symbols : List String) :
    List TradeDecision :=
  let decisions := raws.filterMap TradeDecision.from_dict
  let seen := decisions.map TradeDecision.symbol
  decisions ++
    (symbols.filter (fun s => !seen.contains s)).map
      (fun s => TradeDecision.hold s "No decision provided")

/-- A decoded decision naming a symbol outside the configured list. -/
def rawFoo : RawDecision :=
  { symbol := "PERP_FOO_USDC", action := "LONG", leverage := 5
    quantity := 1/10, stop_loss := 2900, take_profit := 3100
    confidence := 1/2 }

/-- C5 counterexample — the parsed decision list can contain a decision
whose symbol is outside the configured list: unknown symbols are kept, not
dropped (they are only rejected later, at validation, for lack of
price/indicator data). -/
theorem parse_keeps_unknown_symbol :
    ∃ d ∈ parse_decisions [rawFoo] ["PERP_ETH_USDC"],
      d.symbol ∉ ["PERP_ETH_USDC"] := by
  refine ⟨(parse_decisions [rawFoo] ["PERP_ETH_USDC"]).head (by decide), ?_, ?_⟩
  · exact List.head_mem _
  · decide

/-- C5 amended — the parsed list contains every decoded response decision
(unknown symbols included) plus exactly the synthetic HOLDs for configured
symbols absent from the response: a symbol's multiplicity in the parsed
list is its multiplicity among the decoded decisions, plus its
multiplicity in the configured list when the response did not mention it;
in particular every configured symbol gets at least one decision. -/
theorem parse_decisions_characterization :
    (∀ (raws : List RawDecision) (symbols : List String) (s : String),
      ((parse_decisions raws symbols).map TradeDecision.symbol).count s =
        ((raws.filterMap TradeDecision.from_dict).map TradeDecision.symbol).count s
          + (if ((raws.filterMap TradeDecision.from_dict).map
                TradeDecision.symbol).count s = 0
             then symbols.count s else 0)) ∧
    (∀ (raws : List RawDecision) (symbols : List String) (s : String),
      s ∈ symbols → ∃ d ∈ parse_decisions raws symbols, d.symbol = s) := by
  have hfill : ∀ (symbols : List String) (p : String → Bool),
      ((symbols.filter p).map
        (fun s => TradeDecision.hold s "No decision provided")).map
          TradeDecision.symbol = symbols.filter p := by
    intro symbols p
    rw [List.map_map,
      show (TradeDecision.symbol ∘ fun s => TradeDecision.hold s "No decision provided")
        = id from funext fun s => rfl,
      List.map_id]
  have hmain : ∀ (raws : List RawDecision) (symbols : List String) (s : String),
      ((parse_decisions raws symbols).map TradeDecision.symbol).count s =
        ((raws.filterMap TradeDecision.from_dict).map TradeDecision.symbol).count s
          + (if ((raws.filterMap TradeDecision.from_dict).map
                TradeDecision.symbol).count s = 0
             then symbols.count s else 0) := by
    intro raws symbols s
    unfold parse_decisions
    rw [List.map_append, List.count_append, hfill]
    by_cases hmem : s ∈ (raws.filterMap TradeDecision.from_dict).map
        TradeDecision.symbol
    · rw [if_neg (fun h => (List.count_eq_zero.mp h) hmem)]
      have hzero : ((raws.filterMap TradeDecision.from_dict).map
          TradeDecision.symbol).contains s = true :=
        List.elem_eq_true_of_mem hmem
      have : List.count s (symbols.filter
          (fun t => !((raws.filterMap TradeDecision.from_dict).map
            TradeDecision.symbol).contains t)) = 0 := by
        rw [List.count_eq_zero]
        intro h
        have h2 := (List.mem_filter.mp h).2
        rw [hzero] at h2
        exact Bool.noConfusion h2
      rw [this]
    · rw [if_pos (List.count_eq_zero.mpr hmem)]
      have hc : ((raws.filterMap TradeDecision.from_dict).map
          TradeDecision.symbol).contains s = false := by
        cases hcc : ((raws.filterMap TradeDecision.from_dict).map
            TradeDecision.symbol).contains s
        · rfl
        · exact absurd (List.mem_of_elem_eq_true hcc) hmem
      rw [List.count_filter (by rw [hc]; rfl)]
  refine ⟨hmain, fun raws symbols s hs => ?_⟩
  have h := hmain raws symbols s
  by_cases hz : ((raws.filterMap TradeDecision.from_dict).map
      TradeDecision.symbol).count s = 0
  · rw [if_pos hz, hz] at h
    have hpos : 0 < ((parse_decisions raws symbols).map TradeDecision.symbol).count s := by
      rw [h]
      exact Nat.add_pos_right 0 (List.count_pos_iff.mpr hs)
    obtain ⟨d, hd, hds⟩ := List.mem_map.mp (List.count_pos_iff.mp hpos)
    exact ⟨d, hd, hds⟩
  · have hpos : 0 < ((parse_decisions raws symbols).map TradeDecision.symbol).count s := by
      rw [h]
      exact Nat.lt_of_lt_of_le (Nat.pos_of_ne_zero hz) (Nat.le_add_right _ _)
    obtain ⟨d, hd, hds⟩ := List.mem_map.mp (List.count_pos_iff.mp hpos)
    exact ⟨d, hd, hds⟩

/-- Witness for the amended C5 at a concrete response: one unknown-symbol
decision and one configured symbol, which receives its synthetic HOLD. -/
theorem parse_decisions_characterization_witness :
    (((parse_decisions [rawFoo] ["PERP_ETH_USDC"]).map
        TradeDecision.symbol).count "PERP_ETH_USDC" =
      (([rawFoo].filterMap TradeDecision.from_dict).map
          TradeDecision.symbol).count "PERP_ETH_USDC"
        + (if (([rawFoo].filterMap TradeDecision.from_dict).map
              TradeDecision.symbol).count "PERP_ETH_USDC" = 0
           then ["PERP_ETH_USDC"].count "PERP_ETH_USDC" else 0)) ∧
    ∃ d ∈ parse_decisions [rawFoo] ["PERP_ETH_USDC"],
      d.symbol = "PERP_ETH_USDC" :=
  ⟨parse_decisions_characterization.1 [rawFoo] ["PERP_ETH_USDC"] "PERP_ETH_USDC",
   parse_decisions_characterization.2 [rawFoo] ["PERP_ETH_USDC"] "PERP_ETH_USDC"
     (by decide)⟩

/-! ## Claim C9: indicator range laws (src/indicators.py)

The indicator engine uses float NaN as the "undefined-here" sentinel; the
embedding uses `Option` (`none` = NaN).  Inputs are lists of finite
numbers, as in the claim.  Standard deviation requires a square root, so
`bollinger_bands` is modelled over `ℝ` (hence noncomputably); the
remaining indicators are generic over a linear ordered field. -/

section Indicators

variable {α : Type} [LinearOrderedField α]

/-- `np.mean` over a slice that may contain NaN entries: NaN if the slice
is empty or has any NaN. -/
def optMean (l : List (Option α)) : Option α :=
  if l.any (fun x => x.isNone) ∨ l.length = 0 then none
  else some ((l.filterMap id).sum / (l.length : α))

/-- The EMA recurrence after the seed: carry the previous value over NaN
inputs, blend otherwise (arithmetic with a NaN previous value stays NaN). -/
def emaFrom (alpha : α) : Option α → List (Option α) → List (Option α)
  | _, [] => []
  | prev, x :: xs =>
    let cur : Option α :=
      match x, prev with
      | some v, some pv => some (alpha * v + (1 - alpha) * pv)
      | none, pv => pv
      | some _, none => none
    cur :: emaFrom alpha cur xs

/-- `ema` from src/indicators.py: all-NaN when fewer than `period` values
(or fewer than `period` non-NaN values, or no room for the seed window);
otherwise NaN up to the seed position `start + period - 1`, which gets the
plain mean of the first window, then the recurrence. -/
def ema (data : List (Option α)) (period : Nat) : List (Option α) :=
  if data.length < period then List.replicate data.length none
  else if (data.filterMap id).length < period then List.replicate data.length none
  else
    let start := data.findIdx (fun x => x.isSome)
    let seed_end := start + period
    if data.length < seed_end then List.replicate data.length none
    else
      let alpha := 2 / ((period : α) + 1)
      let seed := optMean ((data.drop start).take period)
      List.replicate (seed_end - 1) none ++
        seed :: emaFrom alpha seed (data.drop seed_end)

/-- `sma` from src/indicators.py (the cumulative-sum formula equals the
rolling window mean exactly over a field). -/
def sma (data : List α) (period : Nat) : List (Option α) :=
  if data.length < period then List.replicate data.length none
  else
    (List.range data.length).map (fun i =>
      if period ≤ i + 1 then
        some ((((data.drop (i + 1 - period)).take period).sum) / (period : α))
      else none)

/-- `np.diff`: successive differences. -/
def diffs (close : List α) : List α :=
  (close.zip close.tail).map (fun q => q.2 - q.1)

/-- The RSI formula from average gain/loss. -/
def rsiVal (avg_gain avg_loss : α) : α :=
  if avg_loss = 0 then 100 else 100 - 100 / (1 + avg_gain / avg_loss)

/-- Wilder-smoothed RSI tail: one output per remaining (gain, loss) pair. -/
def rsiRec (p : α) : α → α → List (α × α) → List α
  | _, _, [] => []
  | ag, al, gl :: rest =>
    let ag' := (ag * (p - 1) + gl.1) / p
    let al' := (al * (p - 1) + gl.2) / p
    rsiVal ag' al' :: rsiRec p ag' al' rest

/-- `rsi` from src/indicators.py (Wilder's method). -/
def rsi (close : List α) (period : Nat) : List (Option α) :=
  if close.length < period + 1 then List.replicate close.length none
  else
    let deltas := diffs close
    let gains := deltas.map (fun d => if 0 < d then d else 0)
    let losses := deltas.map (fun d => if d < 0 then -d else 0)
    let avg_gain := (gains.take period).sum / (period : α)
    let avg_loss := (losses.take period).sum / (period : α)
    List.replicate period none ++
      (rsiVal avg_gain avg_loss ::
        rsiRec (period : α) avg_gain avg_loss
          ((gains.drop period).zip (losses.drop period))).map some

/-- Elementwise subtraction with NaN propagation. -/
def optSub : Option α → Option α → Option α
  | some a, some b => some (a - b)
  | _, _ => none

/-- `macd` from src/indicators.py: (line, signal, histogram). -/
def macd (close : List α) (fast slow signal_period : Nat) :
    List (Option α) × List (Option α) × List (Option α) :=
  let ema_fast := ema (close.map some) fast
  let ema_slow := ema (close.map some) slow
  let macd_line := List.zipWith optSub ema_fast ema_slow
  let signal_line := ema macd_line signal_period
  let histogram := List.zipWith optSub macd_line signal_line
  (macd_line, signal_line, histogram)

end Indicators

/-- `np.std` (population, ddof=0) of a window. -/
noncomputable def npStd (w : List ℝ) : ℝ :=
  Real.sqrt (((w.map (fun x => (x - w.sum / (w.length : ℝ)) ^ 2)).sum) /
    (w.length : ℝ))

/-- `bollinger_bands` from src/indicators.py: (upper, middle, lower) with
`upper/lower = middle ± num_std · std` under NaN propagation. -/
noncomputable def bollinger_bands (close : List ℝ) (period : Nat)
    (num_std : ℝ) :
    List (Option ℝ) × List (Option ℝ) × List (Option ℝ) :=
  let middle := sma close period
  if close.length < period then
    (List.replicate close.length none, List.replicate close.length none,
      List.replicate close.length none)
  else
    let std := (List.range close.length).map (fun i =>
      if period ≤ i + 1 then
        some (npStd ((close.drop (i + 1 - period)).take period))
      else none)
    (List.zipWith (fun m s =>
        match m, s with
        | some m, some s => some (m + num_std * s)
        | _, _ => none) middle std,
      middle,
      List.zipWith (fun m s =>
        match m, s with
        | some m, some s => some (m - num_std * s)
        | _, _ => none) middle std)

/-- The RSI formula stays within [0, 100] for non-negative averages. -/
theorem rsiVal_bounds {α : Type} [LinearOrderedField α] (ag al : α)
    (hg : 0 ≤ ag) (hl : 0 ≤ al) : 0 ≤ rsiVal ag al ∧ rsiVal ag al ≤ 100 := by
  unfold rsiVal
  split_ifs with h
  · norm_num
  · have hal : 0 < al := lt_of_le_of_ne hl (Ne.symm h)
    have hrs : 0 ≤ ag / al := div_nonneg hg hl
    have h2 : 100 / (1 + ag / al) ≤ 100 := div_le_self (by norm_num) (by linarith)
    have h3 : (0:α) < 100 / (1 + ag / al) := div_pos (by norm_num) (by linarith)
    constructor <;> linarith

/-- Every output of the Wilder-smoothed tail stays within [0, 100]. -/
theorem rsiRec_bounds {α : Type} [LinearOrderedField α] (p : α) (hp : 1 ≤ p)
    (pairs : List (α × α)) :
    ∀ (ag al : α), 0 ≤ ag → 0 ≤ al →
      (∀ q ∈ pairs, 0 ≤ q.1 ∧ 0 ≤ q.2) →
      ∀ x ∈ rsiRec p ag al pairs, 0 ≤ x ∧ x ≤ 100 := by
  induction pairs with
  | nil =>
    intro ag al _ _ _ x hx
    exact absurd hx (List.not_mem_nil x)
  | cons q rest ih =>
    intro ag al hg hl hq x hx
    have hp0 : (0:α) < p := lt_of_lt_of_le one_pos hp
    have hq1 := (hq q (List.mem_cons_self q rest)).1
    have hq2 := (hq q (List.mem_cons_self q rest)).2
    have hg' : 0 ≤ (ag * (p - 1) + q.1) / p :=
      div_nonneg (add_nonneg (mul_nonneg hg (by linarith)) hq1) (le_of_lt hp0)
    have hl' : 0 ≤ (al * (p - 1) + q.2) / p :=
      div_nonneg (add_nonneg (mul_nonneg hl (by linarith)) hq2) (le_of_lt hp0)
    rw [rsiRec] at hx
    rcases List.mem_cons.mp hx with h | h
    · rw [h]
      exact rsiVal_bounds _ _ hg' hl'
    · exact ih _ _ hg' hl' (fun r hr => hq r (List.mem_cons_of_mem _ hr)) x h

/-- C9 — every non-NaN RSI entry lies in [0, 100]; Bollinger satisfies
`lower ≤ middle ≤ upper` at every index where all three are defined (for a
non-negative band width); and the MACD histogram equals line − signal at
every index where line and signal are both defined. -/
theorem indicator_range_laws :
    (∀ (close : List ℚ) (p : Nat), 1 ≤ p → ∀ x : ℚ, some x ∈ rsi close p →
      0 ≤ x ∧ x ≤ 100) ∧
    (∀ (close : List ℝ) (p : Nat) (k : ℝ), 0 ≤ k → ∀ (i : Nat) (u m l : ℝ),
      (bollinger_bands close p k).1[i]? = some (some u) →
      (bollinger_bands close p k).2.1[i]? = some (some m) →
      (bollinger_bands close p k).2.2[i]? = some (some l) →
      l ≤ m ∧ m ≤ u) ∧
    (∀ (close : List ℚ) (fast slow signal_period i : Nat) (a b : ℚ),
      (macd close fast slow signal_period).1[i]? = some (some a) →
      (macd close fast slow signal_period).2.1[i]? = some (some b) →
      (macd close fast slow signal_period).2.2[i]? = some (some (a - b))) := by
  refine ⟨?_, ?_, ?_⟩
  · -- RSI ∈ [0, 100]
    intro close p hp x hx
    unfold rsi at hx
    split_ifs at hx with h1
    · have := List.eq_of_mem_replicate hx
      exact absurd this (by simp)
    rcases List.mem_append.mp hx with h | h
    · have := List.eq_of_mem_replicate h
      exact absurd this (by simp)
    rcases List.mem_map.mp h with ⟨y, hy, hxy⟩
    rw [← Option.some.inj hxy]
    have hpq : (1:ℚ) ≤ (p : ℚ) := by exact_mod_cast hp
    have hgain : ∀ z ∈ (diffs close).map (fun d => if 0 < d then d else 0),
        (0:ℚ) ≤ z := by
      intro z hz
      rcases List.mem_map.mp hz with ⟨d, _, rfl⟩
      split_ifs with hd
      · exact le_of_lt hd
      · exact le_rfl
    have hloss : ∀ z ∈ (diffs close).map (fun d => if d < 0 then -d else 0),
        (0:ℚ) ≤ z := by
      intro z hz
      rcases List.mem_map.mp hz with ⟨d, _, rfl⟩
      split_ifs with hd
      · linarith
      · exact le_rfl
    have hag : (0:ℚ) ≤ (((diffs close).map (fun d => if 0 < d then d else 0)).take p).sum / (p : ℚ) := by
      apply div_nonneg _ (by positivity)
      exact List.sum_nonneg (fun z hz => hgain z (List.mem_of_mem_take hz))
    have hal : (0:ℚ) ≤ (((diffs close).map (fun d => if d < 0 then -d else 0)).take p).sum / (p : ℚ) := by
      apply div_nonneg _ (by positivity)
      exact List.sum_nonneg (fun z hz => hloss z (List.mem_of_mem_take hz))
    rcases List.mem_cons.mp hy with h' | h'
    · rw [h']
      exact rsiVal_bounds _ _ hag hal
    · refine rsiRec_bounds (p : ℚ) hpq _ _ _ hag hal ?_ y h'
      intro q hq
      obtain ⟨hq1, hq2⟩ := List.of_mem_zip hq
      exact ⟨hgain q.1 (List.mem_of_mem_drop hq1),
        hloss q.2 (List.mem_of_mem_drop hq2)⟩
  · -- Bollinger ordering
    intro close p k hk i u m l hu hm hl
    unfold bollinger_bands at hu hm hl
    by_cases hlen : close.length < p
    · rw [if_pos hlen] at hu
      dsimp only at hu
      rw [List.getElem?_replicate] at hu
      split_ifs at hu
      exact absurd (Option.some.inj hu) (by simp)
    rw [if_neg hlen] at hu hm hl
    dsimp only at hu hm hl
    have hi : i < close.length := by
      have := List.getElem?_eq_some.mp hm
      obtain ⟨hlt, _⟩ := this
      unfold sma at hlt
      rw [if_neg hlen] at hlt
      simpa using hlt
    have hsma : (sma close p)[i]? =
        some (if p ≤ i + 1 then
          some ((((close.drop (i + 1 - p)).take p).sum) / (p : ℝ))
        else none) := by
      unfold sma
      rw [if_neg hlen, List.getElem?_map, List.getElem?_range hi]
      rfl
    have hstd : ((List.range close.length).map (fun j =>
        if p ≤ j + 1 then
          some (npStd ((close.drop (j + 1 - p)).take p))
        else none))[i]? =
        some (if p ≤ i + 1 then
          some (npStd ((close.drop (i + 1 - p)).take p)) else none) := by
      rw [List.getElem?_map, List.getElem?_range hi]
      rfl
    rw [List.getElem?_zipWith, hsma, hstd] at hu hl
    rw [hsma] at hm
    by_cases hp1 : p ≤ i + 1
    · simp only [if_pos hp1] at hu hm hl
      have hmm : (((close.drop (i + 1 - p)).take p).sum) / (p : ℝ) = m :=
        Option.some.inj (Option.some.inj hm)
      have huu : (((close.drop (i + 1 - p)).take p).sum) / (p : ℝ)
          + k * npStd ((close.drop (i + 1 - p)).take p) = u :=
        Option.some.inj (Option.some.inj hu)
      have hll : (((close.drop (i + 1 - p)).take p).sum) / (p : ℝ)
          - k * npStd ((close.drop (i + 1 - p)).take p) = l :=
        Option.some.inj (Option.some.inj hl)
      have hs : 0 ≤ npStd ((close.drop (i + 1 - p)).take p) := Real.sqrt_nonneg _
      have hkn := mul_nonneg hk hs
      constructor <;> linarith
    · rw [if_neg hp1] at hm
      exact absurd (Option.some.inj hm) (by simp)
  · -- MACD histogram
    intro close fast slow signal_period i a b hline hsig
    unfold macd at hline hsig ⊢
    dsimp only at hline hsig ⊢
    rw [List.getElem?_zipWith, hline, hsig]
    rfl

/-- RSI of a two-candle rally at period 1: one defined entry, 100. -/
theorem rsi_eval_01 : rsi ([0, 1] : List ℚ) 1 = [none, some 100] := by
  simp [rsi, diffs, rsiRec, rsiVal]

/-- The population standard deviation of a single zero is zero. -/
theorem npStd_zero : npStd [0] = 0 := by
  simp [npStd]

/-- Bollinger of a single zero candle at period 1, width 2. -/
theorem bollinger_eval_0 :
    bollinger_bands [0] 1 2 = ([some 0], [some 0], [some 0]) := by
  simp [bollinger_bands, sma, npStd_zero, List.range_succ]

/-- MACD of a single candle with unit periods: everything 0. -/
theorem macd_eval_5 :
    macd ([5] : List ℚ) 1 1 1 = ([some 0], [some 0], [some 0]) := by
  simp [macd, ema, optMean, emaFrom, optSub, List.findIdx_cons]

/-- Witness for C9 at concrete inputs: RSI hits 100 on a pure rally;
a flat window gives upper = middle = lower; and the MACD histogram entry
equals line − signal. -/
theorem indicator_range_laws_witness :
    ((0:ℚ) ≤ 100 ∧ (100:ℚ) ≤ 100) ∧
    ((0:ℝ) ≤ 0 ∧ (0:ℝ) ≤ 0) ∧
    (macd ([5] : List ℚ) 1 1 1).2.2[0]? = some (some ((0:ℚ) - 0)) :=
  ⟨indicator_range_laws.1 [0, 1] 1 (by norm_num) 100 (by rw [rsi_eval_01]; simp),
   indicator_range_laws.2.1 [0] 1 2 (by norm_num) 0 0 0 0
     (by rw [bollinger_eval_0]; rfl) (by rw [bollinger_eval_0]; rfl)
     (by rw [bollinger_eval_0]; rfl),
   indicator_range_laws.2.2 [5] 1 1 1 0 0 0
     (by rw [macd_eval_5]; rfl) (by rw [macd_eval_5]; rfl)⟩

/-! ## Claim C8: the kline ring buffer (src/models/market.py)

`KlineBuffer` keeps six parallel sequences.  `append` either updates the
last row in place (same timestamp) or appends and then drops from the head
down to `max_size`.  The fold over a row sequence is characterized against
a row-level specification: the buffer holds the last `max_size` rows of
the append sequence after collapsing consecutive same-timestamp updates. -/

/-- One OHLCV row. -/
structure Row where
  o : ℚ
  h : ℚ
  l : ℚ
  c : ℚ
  v : ℚ
  ts : ℚ
  deriving DecidableEq, Repr

/-- `KlineBuffer` from src/models/market.py (six parallel sequences;
`open` is a Lean keyword, hence `open_`). -/
structure KlineBuffer where
  max_size : Nat := 200
  open_ : List ℚ := []
  high : List ℚ := []
  low : List ℚ := []
  close : List ℚ := []
  volume : List ℚ := []
  timestamp : List ℚ := []
  deriving DecidableEq, Repr

/-- `KlineBuffer.size` (length of the close column). -/
def KlineBuffer.size (b : KlineBuffer) : Nat := b.close.length

/-- In-place update of the last element (`xs[-1] = x`). -/
def setLast (l : List ℚ) (x : ℚ) : List ℚ := l.dropLast ++ [x]

/-- The trailing `n` elements (`xs[-n:]` for positive `n`). -/
def lastN {β : Type} (l : List β) (n : Nat) : List β := l.drop (l.length - n)

/-- `KlineBuffer.append` from src/models/market.py. -/
def KlineBuffer.append (b : KlineBuffer) (o h l c v ts : ℚ) : KlineBuffer :=
  if 0 < b.size ∧ b.timestamp.getLast? = some ts then
    { b with open_ := setLast b.open_ o, high := setLast b.high h
             low := setLast b.low l, close := setLast b.close c
             volume := setLast b.volume v }
  else
    let b' : KlineBuffer :=
      { b with open_ := b.open_ ++ [o], high := b.high ++ [h]
               low := b.low ++ [l], close := b.close ++ [c]
               volume := b.volume ++ [v], timestamp := b.timestamp ++ [ts] }
    if b.max_size < b'.size then
      { b' with open_ := lastN b'.open_ b.max_size, high := lastN b'.high b.max_size
                low := lastN b'.low b.max_size, close := lastN b'.close b.max_size
                volume := lastN b'.volume b.max_size
                timestamp := lastN b'.timestamp b.max_size }
    else b'

/-- Append a whole row. -/
def KlineBuffer.appendRow (b : KlineBuffer) (r : Row) : KlineBuffer :=
  b.append r.o r.h r.l r.c r.v r.ts

/-- Row-level specification step: a row whose timestamp matches the last
stored one replaces it, otherwise it is appended. -/
def collapseStep (acc : List Row) (r : Row) : List Row :=
  if acc.getLast?.map Row.ts = some r.ts then acc.dropLast ++ [r]
  else acc ++ [r]

/-- Row-level specification: collapse consecutive same-timestamp updates,
keeping the latest. -/
def collapse (rows : List Row) : List Row := rows.foldl collapseStep []

/-- The buffer storing exactly the given rows. -/
def ofRows (m : Nat) (rows : List Row) : KlineBuffer :=
  { max_size := m, open_ := rows.map Row.o, high := rows.map Row.h
    low := rows.map Row.l, close := rows.map Row.c
    volume := rows.map Row.v, timestamp := rows.map Row.ts }

/-- Feed a sequence of rows into an empty buffer of capacity `m`. -/
def buildBuffer (m : Nat) (rows : List Row) : KlineBuffer :=
  rows.foldl KlineBuffer.appendRow (ofRows m [])

/-! List auxiliaries for the ring-buffer characterization. -/

theorem length_lastN {β : Type} (l : List β) (n : Nat) :
    (lastN l n).length = l.length - (l.length - n) := by
  simp [lastN]

theorem lastN_of_le {β : Type} {l : List β} {n : Nat} (h : l.length ≤ n) :
    lastN l n = l := by
  rw [lastN, Nat.sub_eq_zero_of_le h, List.drop_zero]

theorem lastN_zero {β : Type} (l : List β) : lastN l 0 = [] := by
  simp [lastN, List.drop_length]

theorem map_lastN {β γ : Type} (f : β → γ) (l : List β) (n : Nat) :
    (lastN l n).map f = lastN (l.map f) n := by
  rw [lastN, lastN, List.map_drop, List.length_map]

theorem getLast?_drop_of_lt {β : Type} :
    ∀ (l : List β) (k : Nat), k < l.length → (l.drop k).getLast? = l.getLast? := by
  intro l
  induction l with
  | nil => intro k hk; simp at hk
  | cons a t ih =>
    intro k hk
    cases k with
    | zero => rfl
    | succ k =>
      rw [List.drop_succ_cons]
      have hk' : k < t.length := Nat.lt_of_succ_lt_succ hk
      rw [ih k hk']
      cases t with
      | nil => simp at hk'
      | cons b t' => exact List.getLast?_cons_cons.symm

theorem getLast?_lastN {β : Type} {l : List β} {n : Nat} (hn : 0 < n)
    (hl : l ≠ []) : (lastN l n).getLast? = l.getLast? := by
  rw [lastN]
  apply getLast?_drop_of_lt
  have : 0 < l.length := List.length_pos.mpr hl
  omega

theorem dropLast_drop_comm {β : Type} (l : List β) (k : Nat)
    (_h : k ≤ l.length - 1) : (l.drop k).dropLast = l.dropLast.drop k := by
  rw [List.dropLast_eq_take, List.dropLast_eq_take, List.drop_take]
  congr 1
  simp [List.length_drop]
  omega

theorem lastN_setLast {β : Type} (l : List β) (x : β)
    (m : Nat) (hm : 0 < m) (hl : l ≠ []) :
    (lastN l m).dropLast ++ [x] = lastN (l.dropLast ++ [x]) m := by
  have hlen : 0 < l.length := List.length_pos.mpr hl
  by_cases h : l.length ≤ m
  · rw [lastN_of_le h, lastN_of_le (by
      rw [List.length_append, List.length_dropLast]
      simp
      omega)]
  · push_neg at h
    rw [lastN, lastN, List.length_append, List.length_dropLast]
    have h1 : l.length - m ≤ l.length - 1 := by omega
    rw [dropLast_drop_comm l (l.length - m) h1]
    simp only [List.length_singleton]
    have h2 : l.length - 1 + 1 - m = l.length - m := by omega
    rw [h2, List.drop_append_of_le_length (by
      rw [List.length_dropLast]; omega)]

theorem lastN_append_lastN {β : Type} (l : List β) (x : β) (m : Nat) :
    lastN (lastN l m ++ [x]) m = lastN (l ++ [x]) m := by
  rcases Nat.eq_zero_or_pos m with hm | hm
  · rw [hm, lastN_zero, lastN_zero]
  by_cases h : l.length ≤ m
  · rw [lastN_of_le h]
  · push_neg at h
    have hlen : (lastN l m).length = m := by
      rw [length_lastN]; omega
    show (lastN l m ++ [x]).drop ((lastN l m ++ [x]).length - m) =
      lastN (l ++ [x]) m
    rw [List.length_append, hlen, List.length_singleton]
    have h1 : m + 1 - m = 1 := by omega
    rw [h1, List.drop_append_of_le_length (by rw [hlen]; omega)]
    unfold lastN
    rw [List.drop_drop, List.length_append,
      List.drop_append_of_le_length (by simp; omega), List.length_singleton]
    congr 2
    omega

/-- One `append` on a buffer holding the trailing `m` collapsed rows
produces the buffer of the trailing `m` rows after the specification
step. -/
theorem appendRow_ofRows (m : Nat) (hm : 0 < m) (U : List Row) (r : Row) :
    (ofRows m (lastN U m)).appendRow r = ofRows m (lastN (collapseStep U r) m) := by
  unfold KlineBuffer.appendRow KlineBuffer.append collapseStep
  by_cases hts : U.getLast?.map Row.ts = some r.ts
  · have hU : U ≠ [] := by
      intro hnil; rw [hnil] at hts; simp at hts
    have hUlen : 0 < U.length := List.length_pos.mpr hU
    have hsz : 0 < (ofRows m (lastN U m)).size := by
      show 0 < ((lastN U m).map Row.c).length
      rw [List.length_map, length_lastN]; omega
    have hW : lastN U m ≠ [] := by
      intro hnil
      have := congrArg List.length hnil
      rw [length_lastN] at this
      simp at this
      omega
    have htl : (ofRows m (lastN U m)).timestamp.getLast? = some r.ts := by
      show ((lastN U m).map Row.ts).getLast? = some r.ts
      rw [List.getLast?_map, getLast?_lastN hm hU, hts]
    rw [if_pos ⟨hsz, htl⟩, if_pos hts]
    have key : (lastN U m).dropLast ++ [r] = lastN (U.dropLast ++ [r]) m :=
      lastN_setLast U r m hm hU
    have hf : ∀ f : Row → ℚ, setLast ((lastN U m).map f) (f r) =
        (lastN (U.dropLast ++ [r]) m).map f := by
      intro f
      rw [setLast, ← List.map_dropLast, ← key, List.map_append]
      rfl
    have hlastts : Row.ts ((lastN U m).getLast hW) = r.ts := by
      have h1 : (lastN U m).getLast? = some ((lastN U m).getLast hW) :=
        List.getLast?_eq_getLast _ hW
      have h2 : (lastN U m).getLast?.map Row.ts = some r.ts := by
        rw [getLast?_lastN hm hU]; exact hts
      rw [h1] at h2
      exact Option.some.inj h2
    have hfts : (lastN U m).map Row.ts =
        (lastN (U.dropLast ++ [r]) m).map Row.ts := by
      calc (lastN U m).map Row.ts
          = ((lastN U m).dropLast ++ [(lastN U m).getLast hW]).map Row.ts := by
            rw [List.dropLast_append_getLast]
        _ = (lastN U m).dropLast.map Row.ts ++ [Row.ts ((lastN U m).getLast hW)] := by
            rw [List.map_append]; rfl
        _ = (lastN U m).dropLast.map Row.ts ++ [r.ts] := by rw [hlastts]
        _ = ((lastN U m).dropLast ++ [r]).map Row.ts := by
            rw [List.map_append]; rfl
        _ = (lastN (U.dropLast ++ [r]) m).map Row.ts := by rw [key]
    simp only [ofRows, KlineBuffer.mk.injEq]
    exact ⟨by trivial, hf Row.o, hf Row.h, hf Row.l, hf Row.c, hf Row.v, hfts⟩
  · have hcond : ¬(0 < (ofRows m (lastN U m)).size ∧
        (ofRows m (lastN U m)).timestamp.getLast? = some r.ts) := by
      rintro ⟨h1, h2⟩
      by_cases hU : U = []
      · subst hU
        simp [ofRows, KlineBuffer.size, lastN] at h1
      · apply hts
        have h2' : ((lastN U m).map Row.ts).getLast? = some r.ts := h2
        rw [List.getLast?_map, getLast?_lastN hm hU] at h2'
        exact h2'
    rw [if_neg hcond, if_neg hts]
    have happ : ∀ f : Row → ℚ, (lastN U m).map f ++ [f r] =
        ((lastN U m) ++ [r]).map f := by
      intro f; rw [List.map_append]; rfl
    have hlast : lastN (lastN U m ++ [r]) m = lastN (U ++ [r]) m :=
      lastN_append_lastN U r m
    have hfield : ∀ f : Row → ℚ,
        lastN ((lastN U m).map f ++ [f r]) m = (lastN (U ++ [r]) m).map f := by
      intro f
      rw [happ f, ← map_lastN, hlast]
    dsimp only
    simp only [ofRows, KlineBuffer.size]
    by_cases hsz' : m < ((lastN U m).map Row.c ++ [Row.c r]).length
    · rw [if_pos hsz']
      simp only [KlineBuffer.mk.injEq]
      exact ⟨by trivial, hfield Row.o, hfield Row.h, hfield Row.l, hfield Row.c,
        hfield Row.v, hfield Row.ts⟩
    · rw [if_neg hsz']
      have hle : (lastN U m ++ [r]).length ≤ m := by
        have h3 : ((lastN U m).map Row.c ++ [Row.c r]).length ≤ m :=
          le_of_not_lt hsz'
        simpa [List.length_append, List.length_map] using h3
      have hid : lastN (lastN U m ++ [r]) m = lastN U m ++ [r] :=
        lastN_of_le hle
      have hfield' : ∀ f : Row → ℚ,
          (lastN U m).map f ++ [f r] = (lastN (U ++ [r]) m).map f := by
        intro f
        rw [happ f, ← hlast, hid]
      simp only [KlineBuffer.mk.injEq]
      exact ⟨by trivial, hfield' Row.o, hfield' Row.h, hfield' Row.l, hfield' Row.c,
        hfield' Row.v, hfield' Row.ts⟩

/-- Folding an append sequence into an empty buffer yields exactly the
trailing `max_size` collapsed rows. -/
theorem buildBuffer_eq (m : Nat) (hm : 0 < m) (rows : List Row) :
    buildBuffer m rows = ofRows m (lastN (collapse rows) m) := by
  induction rows using List.reverseRecOn with
  | nil => simp [buildBuffer, collapse, lastN]
  | append_singleton rows r ih =>
    have h1 : buildBuffer m (rows ++ [r]) = (buildBuffer m rows).appendRow r := by
      unfold buildBuffer
      rw [List.foldl_append]
      rfl
    have h2 : collapse (rows ++ [r]) = collapseStep (collapse rows) r := by
      unfold collapse
      rw [List.foldl_append]
      rfl
    rw [h1, ih, h2, appendRow_ofRows m hm]

/-- C8 — from an empty buffer, every append sequence leaves the six
sequences with equal length at most `max_size`, the buffer holds exactly
the trailing `max_size` rows of the collapsed (distinct-timestamp) append
sequence, and an append whose timestamp equals the last stored one
replaces the last row in place, leaving the size unchanged. -/
theorem kline_buffer_invariants :
    (∀ (m : Nat), 0 < m → ∀ (rows : List Row),
      buildBuffer m rows = ofRows m (lastN (collapse rows) m) ∧
      ((buildBuffer m rows).open_.length = (buildBuffer m rows).close.length ∧
       (buildBuffer m rows).high.length = (buildBuffer m rows).close.length ∧
       (buildBuffer m rows).low.length = (buildBuffer m rows).close.length ∧
       (buildBuffer m rows).volume.length = (buildBuffer m rows).close.length ∧
       (buildBuffer m rows).timestamp.length = (buildBuffer m rows).close.length ∧
       (buildBuffer m rows).close.length ≤ m)) ∧
    (∀ (b : KlineBuffer) (o h l c v ts : ℚ),
      0 < b.size → b.timestamp.getLast? = some ts →
      b.append o h l c v ts =
        { b with open_ := setLast b.open_ o, high := setLast b.high h
                 low := setLast b.low l, close := setLast b.close c
                 volume := setLast b.volume v } ∧
      (b.append o h l c v ts).size = b.size) := by
  constructor
  · intro m hm rows
    refine ⟨buildBuffer_eq m hm rows, ?_⟩
    rw [buildBuffer_eq m hm rows]
    simp only [ofRows, List.length_map]
    refine ⟨by trivial, by trivial, by trivial, by trivial, by trivial, ?_⟩
    rw [length_lastN]
    omega
  · intro b o h l c v ts h1 h2
    constructor
    · unfold KlineBuffer.append
      rw [if_pos ⟨h1, h2⟩]
    · unfold KlineBuffer.append KlineBuffer.size
      rw [if_pos ⟨h1, h2⟩]
      show (setLast b.close c).length = b.close.length
      rw [setLast, List.length_append, List.length_dropLast]
      have : 0 < b.close.length := h1
      simp
      omega

/-- Four candles, the second updating the first in place (same timestamp),
for a buffer of capacity 2. -/
def rowA : Row := ⟨1, 2, 0, 1, 10, 1⟩

/-- The mid-candle update of `rowA` (same timestamp 1). -/
def rowB : Row := ⟨1, 3, 0, 2, 12, 1⟩

/-- A later candle at timestamp 2. -/
def rowC : Row := ⟨2, 4, 1, 3, 5, 2⟩

/-- A later candle at timestamp 3. -/
def rowD : Row := ⟨3, 5, 2, 4, 6, 3⟩

/-- Witness for C8: a concrete append sequence with a mid-candle update
into a capacity-2 buffer, and a concrete in-place update. -/
theorem kline_buffer_invariants_witness :
    (buildBuffer 2 [rowA, rowB, rowC, rowD] =
      ofRows 2 (lastN (collapse [rowA, rowB, rowC, rowD]) 2) ∧
      ((buildBuffer 2 [rowA, rowB, rowC, rowD]).open_.length =
        (buildBuffer 2 [rowA, rowB, rowC, rowD]).close.length ∧
       (buildBuffer 2 [rowA, rowB, rowC, rowD]).high.length =
        (buildBuffer 2 [rowA, rowB, rowC, rowD]).close.length ∧
       (buildBuffer 2 [rowA, rowB, rowC, rowD]).low.length =
        (buildBuffer 2 [rowA, rowB, rowC, rowD]).close.length ∧
       (buildBuffer 2 [rowA, rowB, rowC, rowD]).volume.length =
        (buildBuffer 2 [rowA, rowB, rowC, rowD]).close.length ∧
       (buildBuffer 2 [rowA, rowB, rowC, rowD]).timestamp.length =
        (buildBuffer 2 [rowA, rowB, rowC, rowD]).close.length ∧
       (buildBuffer 2 [rowA, rowB, rowC, rowD]).close.length ≤ 2)) ∧
    ((ofRows 2 [rowC, rowD]).append rowD.o rowD.h rowD.l rowD.c rowD.v 3 =
      { ofRows 2 [rowC, rowD] with
          open_ := setLast (ofRows 2 [rowC, rowD]).open_ rowD.o
          high := setLast (ofRows 2 [rowC, rowD]).high rowD.h
          low := setLast (ofRows 2 [rowC, rowD]).low rowD.l
          close := setLast (ofRows 2 [rowC, rowD]).close rowD.c
          volume := setLast (ofRows 2 [rowC, rowD]).volume rowD.v } ∧
      ((ofRows 2 [rowC, rowD]).append rowD.o rowD.h rowD.l rowD.c rowD.v
        3).size = (ofRows 2 [rowC, rowD]).size) :=
  ⟨kline_buffer_invariants.1 2 (by norm_num) [rowA, rowB, rowC, rowD],
   kline_buffer_invariants.2 (ofRows 2 [rowC, rowD]) rowD.o rowD.h rowD.l
     rowD.c rowD.v 3 (by norm_num [ofRows, KlineBuffer.size]) (by rfl)⟩
